import Mathlib

/-!
Shallow embedding of the flight-simulation core of `core/flight_simulator.py`
(class `FlightSimulator`) and proofs of the specification claims about it.

Modelling conventions:
* Python floats are modelled as rationals (`ℚ`); the arithmetic the code
  performs on them (`+`, `-`, `*`, `/`, `%`, `max`, `min`, `abs`, `int()`)
  is exact on rationals, so this is faithful whenever all values are finite.
  Float special values (NaN/Infinity) matter for two claims; for those a
  dedicated type `PyF` with explicit NaN/Inf propagation is used on the
  exact code paths involved.
* Calls into `math.sin`/`cos`/`asin`/`atan2`/`sqrt` and the constant
  `math.pi` are library floats; they are passed in as an abstract `MathFns`
  record so every definition stays executable (a concrete record is supplied
  in closed evaluations).
* `random.*` draws and `time.time()` reads are passed in explicitly as
  oracle records (`StartOracle`, `TickOracle`), one per call, exactly where
  the source draws them.
* Python `x % 360` on floats is floored modulus (`pymod`), `int(x)` is
  truncation toward zero (`pytrunc`), and the alert de-duplication idiom
  `"needle" not in str(alerts[-3:])` is modelled by `pyIn` (substring test
  on the `str()` rendering of the list slice).
-/

set_option maxRecDepth 2000
set_option maxHeartbeats 1000000

namespace Oogame

/-- Floored modulus, the semantics of Python `x % m` for floats (`m > 0`
gives a result in `[0, m)`); written with the executable `Rat.floor`. -/
def pymod (x m : ℚ) : ℚ := x - m * (x / m).floor

/-- Truncation toward zero, the semantics of Python `int(x)` on a finite
float (`Int.tdiv` truncates toward zero and `q.den > 0`). -/
def pytrunc (q : ℚ) : ℤ := q.num.tdiv q.den

/-- Python list slice `l[-n:]`: the last `n` elements (the whole list when
`l` is shorter than `n`). -/
def lastN (n : ℕ) (l : List String) : List String := l.drop (l.length - n)

/-- Boolean prefix test on character lists. -/
def isPrefixB : List Char → List Char → Bool
  | [], _ => true
  | _ :: _, [] => false
  | a :: as, b :: bs => a == b && isPrefixB as bs

/-- Boolean substring (contiguous sublist) test on character lists. -/
def isInfixB (xs : List Char) : List Char → Bool
  | [] => isPrefixB xs []
  | ys@(_ :: t) => isPrefixB xs ys || isInfixB xs t

/-- Python `str(l)` for a list of strings: `['a', 'b']`. -/
def pyStrList (l : List String) : String :=
  "[" ++ String.intercalate ", " (l.map fun a => "\x27" ++ a ++ "\x27") ++ "]"

/-- The source's alert de-duplication idiom `needle in str(l)`. -/
def pyIn (needle : String) (l : List String) : Bool :=
  isInfixB needle.toList (pyStrList l).toList

/-- Abstract record of the `math`-module float functions the simulator
calls; kept abstract because no claim depends on their values. -/
structure MathFns where
  sin : ℚ → ℚ
  cos : ℚ → ℚ
  asin : ℚ → ℚ
  atan2 : ℚ → ℚ → ℚ
  sqrt : ℚ → ℚ
  pi : ℚ

/-- `math.radians`. -/
def MathFns.radians (M : MathFns) (x : ℚ) : ℚ := x * M.pi / 180

/-- `math.degrees`. -/
def MathFns.degrees (M : MathFns) (x : ℚ) : ℚ := x * 180 / M.pi

/-- Concrete instance used for closed evaluations. -/
def mathFns0 : MathFns :=
  { sin := fun _ => 0, cos := fun _ => 1, asin := fun _ => 0,
    atan2 := fun _ _ => 0, sqrt := fun _ => 0, pi := 3 }

/-- `FlightPhase` enum of the source. -/
inductive FlightPhase where
  | preflight | taxi | takeoff | climb | cruise
  | descent | approach | landing | taxiToGate | completed
deriving DecidableEq

/-- The `.value` string of each phase. -/
def FlightPhase.value : FlightPhase → String
  | .preflight => "preflight"
  | .taxi => "taxi"
  | .takeoff => "takeoff"
  | .climb => "climb"
  | .cruise => "cruise"
  | .descent => "descent"
  | .approach => "approach"
  | .landing => "landing"
  | .taxiToGate => "taxi_to_gate"
  | .completed => "completed"

/-- `WeatherCondition` enum of the source. -/
inductive WeatherCondition where
  | clear | lightWind | moderateWind | turbulence | rain
deriving DecidableEq

/-- `Location` (from `core/npc_system.py`): a named coordinate pair
`(latitude, longitude)` in degrees. -/
structure Location where
  name : String
  coordinates : ℚ × ℚ
deriving DecidableEq

/-- `FlightPlan` dataclass. -/
structure FlightPlan where
  departure : Location
  destination : Location
  aircraft_type : String
  distance_nm : ℚ
  estimated_time_minutes : ℤ
  cruise_altitude : ℚ
  cruise_speed : ℚ
  fuel_required : ℚ
deriving DecidableEq

/-- `WeatherData` dataclass. -/
structure WeatherData where
  condition : WeatherCondition
  wind_direction : ℤ
  wind_speed : ℤ
  crosswind_component : ℚ
  visibility : ℤ
  temperature : ℤ
deriving DecidableEq

/-- One entry of the `_get_aircraft_specs` lookup table. -/
structure AircraftSpecs where
  cruise_speed : ℚ
  cruise_altitude : ℚ
  fuel_consumption : ℚ
  drift_sensitivity : ℚ
deriving DecidableEq

/-- `_get_aircraft_specs`: static table, defaulting to the single-engine
profile for unknown categories. -/
def getAircraftSpecs (aircraft_type : String) : AircraftSpecs :=
  if aircraft_type = "SINGLE_ENGINE_PROPS" then
    { cruise_speed := 120, cruise_altitude := 6500, fuel_consumption := 12/10, drift_sensitivity := 1 }
  else if aircraft_type = "MULTI_ENGINE_PROPS" then
    { cruise_speed := 180, cruise_altitude := 12000, fuel_consumption := 25/10, drift_sensitivity := 8/10 }
  else if aircraft_type = "JETS_COMMERCIAL" then
    { cruise_speed := 450, cruise_altitude := 35000, fuel_consumption := 8, drift_sensitivity := 5/10 }
  else if aircraft_type = "JETS_MILITARY" then
    { cruise_speed := 500, cruise_altitude := 40000, fuel_consumption := 12, drift_sensitivity := 3/10 }
  else if aircraft_type = "SEAPLANES_AMPHIBIANS" then
    { cruise_speed := 140, cruise_altitude := 8000, fuel_consumption := 18/10, drift_sensitivity := 12/10 }
  else if aircraft_type = "HELICOPTERS_ROTORCRAFT" then
    { cruise_speed := 100, cruise_altitude := 1500, fuel_consumption := 2, drift_sensitivity := 15/10 }
  else
    { cruise_speed := 120, cruise_altitude := 6500, fuel_consumption := 12/10, drift_sensitivity := 1 }

/-- The random draws consumed by one `_generate_weather` call:
`random.choice` over conditions, `randint(0,359)`, `randint(5,25)`,
`randint(3,10)`, `randint(32,85)`. -/
structure WeatherGen where
  condition : WeatherCondition
  wind_direction : ℤ
  wind_speed : ℤ
  visibility : ℤ
  temperature : ℤ
deriving DecidableEq

/-- `_generate_weather`: the random draws are supplied by `g`; the
crosswind component is derived from them and the current heading exactly
as in the source (`wind_speed * sin(radians(abs(wind_dir - heading)))`). -/
def generateWeather (M : MathFns) (g : WeatherGen) (heading : ℚ) : WeatherData :=
  { condition := g.condition,
    wind_direction := g.wind_direction,
    wind_speed := g.wind_speed,
    crosswind_component := (g.wind_speed : ℚ) * M.sin (M.radians |(g.wind_direction : ℚ) - heading|),
    visibility := g.visibility,
    temperature := g.temperature }

/-- The mutable fields of `FlightSimulator` (`__init__`). -/
structure SimState where
  current_flight : Option FlightPlan
  flight_phase : FlightPhase
  is_flying : Bool
  flight_start_time : ℚ
  elapsed_time : ℚ
  altitude : ℚ
  airspeed : ℚ
  heading : ℚ
  target_heading : ℚ
  engine_temp : ℚ
  fuel_remaining : ℚ
  autopilot_enabled : Bool
  current_lat : ℚ
  current_lng : ℚ
  progress_percent : ℚ
  drift_rate : ℚ
  wind_effect : ℚ
  last_correction_time : ℚ
  off_course_distance : ℚ
  current_weather : WeatherData
  system_alerts : List String
  emergency_state : Bool
  course_deviations : ℕ
  system_alerts_count : ℕ
  fuel_efficiency : ℚ
  last_alert_time : ℚ
deriving DecidableEq

/-- `__init__`: the dormant initial state (the constructor's
`_generate_weather` draw is supplied by `g`; `last_alert_time` is first
assigned 0 by `start_flight`/`hasattr` guard, modelled as an initial 0). -/
def initState (M : MathFns) (g : WeatherGen) : SimState :=
  { current_flight := none,
    flight_phase := .preflight,
    is_flying := false,
    flight_start_time := 0,
    elapsed_time := 0,
    altitude := 0,
    airspeed := 0,
    heading := 0,
    target_heading := 0,
    engine_temp := 180,
    fuel_remaining := 100,
    autopilot_enabled := false,
    current_lat := 0,
    current_lng := 0,
    progress_percent := 0,
    drift_rate := 0,
    wind_effect := 0,
    last_correction_time := 0,
    off_course_distance := 0,
    current_weather := generateWeather M g 0,
    system_alerts := [],
    emergency_state := false,
    course_deviations := 0,
    system_alerts_count := 0,
    fuel_efficiency := 100,
    last_alert_time := 0 }

/-- `_calculate_initial_heading`: forward azimuth from departure to
destination of the current flight, folded into `[0,360)` by
`(heading + 360) % 360`; `0.0` when no flight is set. -/
def calcInitialHeading (M : MathFns) (s : SimState) : ℚ :=
  match s.current_flight with
  | none => 0
  | some fp =>
    let lat1 := M.radians fp.departure.coordinates.1
    let lng1 := M.radians fp.departure.coordinates.2
    let lat2 := M.radians fp.destination.coordinates.1
    let lng2 := M.radians fp.destination.coordinates.2
    let dlng := lng2 - lng1
    let y := M.sin dlng * M.cos lat2
    let x := M.cos lat1 * M.sin lat2 - M.sin lat1 * M.cos lat2 * M.cos dlng
    let heading := M.degrees (M.atan2 y x)
    pymod (heading + 360) 360

/-- The `time.time()` read and random draws consumed by one `start_flight`
call (`random.uniform(0.1, 0.3)` and the `_generate_weather` draws). -/
structure StartOracle where
  now : ℚ
  driftRand : ℚ
  weatherGen : WeatherGen
deriving DecidableEq

/-- `start_flight`: returns `false` leaving the state untouched when
already flying, otherwise resets the whole simulation state for the new
plan and returns `true`. -/
def startFlight (M : MathFns) (o : StartOracle) (fp : FlightPlan) (s : SimState) :
    Bool × SimState :=
  if s.is_flying then (false, s)
  else
    let s1 : SimState :=
      { s with current_flight := some fp,
               flight_phase := .preflight,
               is_flying := true,
               flight_start_time := o.now,
               elapsed_time := 0,
               altitude := fp.departure.coordinates.1 * 100,
               airspeed := 0 }
    let h := calcInitialHeading M s1
    let s2 : SimState :=
      { s1 with heading := h,
                target_heading := h,
                engine_temp := 180,
                fuel_remaining := 100,
                current_lat := fp.departure.coordinates.1,
                current_lng := fp.departure.coordinates.2,
                progress_percent := 0,
                drift_rate := o.driftRand * (getAircraftSpecs fp.aircraft_type).drift_sensitivity,
                current_weather := generateWeather M o.weatherGen h,
                system_alerts := [],
                emergency_state := false,
                course_deviations := 0,
                system_alerts_count := 0,
                last_alert_time := 0 }
    (true, s2)

/-- `_update_flight_phase`: phase from elapsed time against the fixed
`if/elif` threshold chain; the `COMPLETED` branch also clears the flying
flag. -/
def updateFlightPhase (s : SimState) : SimState :=
  match s.current_flight with
  | none => s
  | some fp =>
    let total : ℚ := (fp.estimated_time_minutes : ℚ) * 60
    if s.elapsed_time < 180 then { s with flight_phase := .taxi }
    else if s.elapsed_time < 300 then { s with flight_phase := .takeoff }
    else if s.elapsed_time < 900 then { s with flight_phase := .climb }
    else if s.elapsed_time < total - 900 then { s with flight_phase := .cruise }
    else if s.elapsed_time < total - 300 then { s with flight_phase := .descent }
    else if s.elapsed_time < total - 120 then { s with flight_phase := .approach }
    else if s.elapsed_time < total then { s with flight_phase := .landing }
    else { s with flight_phase := .completed, is_flying := false }

/-- `_update_aircraft_state`: phase-driven airspeed/altitude targets plus
fuel burn (`update_flight` guarantees `current_flight` is set; the plan is
passed explicitly). -/
def updateAircraftState (fp : FlightPlan) (dt : ℚ) (s : SimState) : SimState :=
  let s' : SimState :=
    match s.flight_phase with
    | .taxi => { s with airspeed := 15, altitude := s.altitude + 0 }
    | .takeoff => { s with airspeed := 65, altitude := s.altitude + 500 * dt }
    | .climb =>
      if s.altitude < fp.cruise_altitude then
        { s with airspeed := 90, altitude := s.altitude + 300 * dt }
      else
        { s with airspeed := 90 }
    | .cruise => { s with airspeed := fp.cruise_speed }
    | .descent => { s with airspeed := 120, altitude := s.altitude - 400 * dt }
    | .approach => { s with airspeed := 80, altitude := s.altitude - 200 * dt }
    | .landing =>
      if s.altitude > fp.destination.coordinates.1 * 100 then
        { s with airspeed := 60, altitude := s.altitude - 100 * dt }
      else
        { s with airspeed := 60 }
    | _ => s
  if s'.flight_phase ≠ .taxi ∧ s'.flight_phase ≠ .completed then
    { s' with fuel_remaining := max 0 (s'.fuel_remaining - 2/100 * dt) }
  else s'

/-- The drift contribution `_apply_drift_mechanics` adds to the heading
in one tick (lines 340-348): base drift plus the crosswind effect, with
the autopilot-reduced multipliers. -/
def driftAmount (dt : ℚ) (s : SimState) : ℚ :=
  let drift_multiplier : ℚ := if s.autopilot_enabled then 3/10 else 5/10
  let base_drift := s.drift_rate * dt * drift_multiplier
  let wind_multiplier : ℚ := if s.autopilot_enabled then 1/100 else 2/100
  let wind_effect := s.current_weather.crosswind_component * wind_multiplier * dt
  base_drift + wind_effect

/-- The heading update of `_apply_drift_mechanics` (lines 349-350). -/
def driftApplyHeading (dt : ℚ) (s : SimState) : SimState :=
  { s with heading := pymod (s.heading + driftAmount dt s) 360 }

/-- The minimal angular distance between heading and target heading used
by `_apply_drift_mechanics` (lines 353-355). -/
def headingErrorOf (s : SimState) : ℚ :=
  let he0 := |s.heading - s.target_heading|
  if he0 > 180 then 360 - he0 else he0

/-- The course-deviation tracking and alerting block of
`_apply_drift_mechanics` (lines 357-381), run on the already-drifted
state. -/
def driftTrackDeviation (now dt : ℚ) (s : SimState) : SimState :=
  let heading_error := headingErrorOf s
  let warning_threshold : ℚ := if s.autopilot_enabled then 30 else 20
  let critical_threshold : ℚ := if s.autopilot_enabled then 60 else 45
  if heading_error > warning_threshold then
    let s2 : SimState := { s with off_course_distance := s.off_course_distance + 3/100 * dt }
    if heading_error > critical_threshold then
      let s3 : SimState := { s2 with course_deviations := s2.course_deviations + 1 }
      if now - s3.last_alert_time > 10 then
        let s4 : SimState :=
          if !s3.autopilot_enabled then
            { s3 with system_alerts := s3.system_alerts ++ ["Course deviation warning"] }
          else if heading_error > 90 then
            { s3 with system_alerts := s3.system_alerts ++ ["Autopilot course correction"] }
          else s3
        let s5 : SimState := { s4 with last_alert_time := now }
        if s5.system_alerts.length > 10 then
          { s5 with system_alerts := lastN 5 s5.system_alerts }
        else s5
      else s3
    else s2
  else s

/-- `_apply_drift_mechanics`: no-op in TAXI/TAKEOFF/LANDING, otherwise
heading drift followed by course-deviation tracking/alerting (`now` is
the `time.time()` read inside it). -/
def applyDriftMechanics (now dt : ℚ) (s : SimState) : SimState :=
  if s.flight_phase = .taxi ∨ s.flight_phase = .takeoff ∨ s.flight_phase = .landing then s
  else driftTrackDeviation now dt (driftApplyHeading dt s)

/-- `_calculate_distance`: haversine distance in nautical miles. -/
def calculateDistance (M : MathFns) (lat1 lng1 lat2 lng2 : ℚ) : ℚ :=
  let lat1r := M.radians lat1
  let lng1r := M.radians lng1
  let lat2r := M.radians lat2
  let lng2r := M.radians lng2
  let dlat := lat2r - lat1r
  let dlng := lng2r - lng1r
  let a := M.sin (dlat / 2) ^ 2 + M.cos lat1r * M.cos lat2r * M.sin (dlng / 2) ^ 2
  let c := 2 * M.asin (M.sqrt a)
  3440 * c

/-- `_update_position`: flat-earth displacement along the heading, then
progress percent from distance-from-departure over planned distance. -/
def updatePosition (M : MathFns) (dt : ℚ) (s : SimState) : SimState :=
  match s.current_flight with
  | none => s
  | some fp =>
    let speed_nm_per_sec := s.airspeed / 3600
    let distance := speed_nm_per_sec * dt
    let heading_rad := M.radians s.heading
    let lat_change := distance * M.cos heading_rad / 60
    let lng_change := distance * M.sin heading_rad / (60 * M.cos (M.radians s.current_lat))
    let new_lat := s.current_lat + lat_change
    let new_lng := s.current_lng + lng_change
    let dist_from_dep :=
      calculateDistance M fp.departure.coordinates.1 fp.departure.coordinates.2 new_lat new_lng
    { s with current_lat := new_lat,
             current_lng := new_lng,
             progress_percent := min 100 (dist_from_dep / fp.distance_nm * 100) }

/-- The temperature-relaxation block of `_check_systems` (lines
425-450): first-order lag toward the phase/speed target with bounded
random noise (`noise` models `random.uniform(-0.5, 0.5)`), clamped to
`[160,250]`. -/
def checkTempUpdate (noise : ℚ) (s : SimState) : SimState :=
  let target_temp_base : ℚ :=
    if s.flight_phase = .takeoff ∨ s.flight_phase = .climb then 200 else 180
  let target_temp : ℚ :=
    match s.current_flight with
    | some fp => target_temp_base + (s.airspeed / fp.cruise_speed - 1) * 40
    | none => target_temp_base
  let temp_diff := target_temp - s.engine_temp
  let temp_change := temp_diff * (1/10) + noise
  { s with engine_temp := max 160 (min 250 (s.engine_temp + temp_change)) }

/-- The temperature-warning block of `_check_systems` (lines 452-460),
preserving the source's `if temp > 230 / elif temp > 240` ordering. -/
def checkTempAlerts (s : SimState) : SimState :=
  if s.engine_temp > 230 then
    if !pyIn "Engine temperature high" (lastN 3 s.system_alerts) then
      { s with system_alerts := s.system_alerts ++ ["Engine temperature high"],
               system_alerts_count := s.system_alerts_count + 1 }
    else s
  else if s.engine_temp > 240 then
    if !pyIn "ENGINE OVERHEATING" (lastN 3 s.system_alerts) then
      { s with system_alerts := s.system_alerts ++ ["ENGINE OVERHEATING"],
               system_alerts_count := s.system_alerts_count + 1 }
    else s
  else s

/-- The fuel-check block of `_check_systems` (lines 462-470). -/
def checkFuelAlerts (s : SimState) : SimState :=
  let s3 : SimState :=
    if s.fuel_remaining < 20 then
      if !pyIn "Low fuel warning" (lastN 3 s.system_alerts) then
        { s with system_alerts := s.system_alerts ++ ["Low fuel warning"] }
      else s
    else s
  if s3.fuel_remaining < 5 then
    let s4 : SimState := { s3 with emergency_state := true }
    if !pyIn "FUEL EMERGENCY" (lastN 3 s4.system_alerts) then
      { s4 with system_alerts := s4.system_alerts ++ ["FUEL EMERGENCY"] }
    else s4
  else s3

/-- `_check_systems`: temperature relaxation with clamp, then
temperature alerts, then fuel alerts. -/
def checkSystems (noise : ℚ) (s : SimState) : SimState :=
  checkFuelAlerts (checkTempAlerts (checkTempUpdate noise s))

/-- `_update_weather_effects`: occasional wholesale weather regeneration
(the `random.random() < 0.001` outcome and its draws are the `event`
oracle), then the per-tick drift-rate multipliers for
turbulence/moderate wind. -/
def updateWeatherEffects (M : MathFns) (event : Option WeatherGen) (s : SimState) : SimState :=
  let s1 : SimState :=
    match event with
    | some g => { s with current_weather := generateWeather M g s.heading }
    | none => s
  if s1.current_weather.condition = .turbulence then
    { s1 with drift_rate := s1.drift_rate * (3/2) }
  else if s1.current_weather.condition = .moderateWind then
    { s1 with drift_rate := s1.drift_rate * (6/5) }
  else s1

/-- `apply_course_correction`: player input added to the heading, folded
by `% 360` (`now` is the `time.time()` read). -/
def applyCourseCorrection (now correction_degrees : ℚ) (s : SimState) : SimState :=
  { s with heading := pymod (s.heading + correction_degrees) 360,
           last_correction_time := now }

/-- `set_autopilot`. -/
def setAutopilot (enabled : Bool) (s : SimState) : SimState :=
  { s with autopilot_enabled := enabled }

/-- The signed shortest-direction heading error of
`_apply_autopilot_correction` (lines 503-507): `target - heading`
folded into `(-180, 180]`. -/
def signedHeadingError (s : SimState) : ℚ :=
  let e0 := s.target_heading - s.heading
  if e0 > 180 then e0 - 360 else if e0 < -180 then e0 + 360 else e0

/-- The heading-control block of `_apply_autopilot_correction` (lines
499-520): only in CLIMB/CRUISE/DESCENT/APPROACH, 0.2° deadband, at most
`1.5·dt` of correction toward the target per tick. -/
def autopilotHeadingControl (dt : ℚ) (s : SimState) : SimState :=
  if s.flight_phase = .climb ∨ s.flight_phase = .cruise ∨
     s.flight_phase = .descent ∨ s.flight_phase = .approach then
    let heading_error := signedHeadingError s
    let max_correction := (3/2 : ℚ) * dt
    if |heading_error| > 1/5 then
      let correction :=
        if heading_error > 0 then min heading_error max_correction
        else max heading_error (-max_correction)
      { s with heading := pymod (s.heading + correction) 360 }
    else s
  else s

/-- The engine-temperature-driven speed-control block of
`_apply_autopilot_correction` (lines 522-574). -/
def autopilotSpeedControl (fp : FlightPlan) (dt : ℚ) (s : SimState) : SimState :=
  let temp_error := s.engine_temp - 200
  let base_speed : ℚ :=
    if s.flight_phase = .cruise then fp.cruise_speed
    else if s.flight_phase = .climb then 90
    else if s.flight_phase = .descent then 120
    else if s.flight_phase = .approach then 80
    else s.airspeed
  let target_speed : ℚ :=
    if temp_error > 20 then base_speed * (85/100)
    else if temp_error > 10 then base_speed * (92/100)
    else if temp_error < -15 then base_speed * (105/100)
    else base_speed
  let s2 : SimState :=
    if temp_error > 20 then
      if s.system_alerts.length = 0 ∨
         !pyIn "Autopilot reducing speed" (lastN 5 s.system_alerts) then
        { s with system_alerts := s.system_alerts ++ ["Autopilot reducing speed for cooling"] }
      else s
    else s
  let speed_error := target_speed - s2.airspeed
  let max_speed_change := 10 * dt
  if |speed_error| > 1 then
    let speed_change :=
      if speed_error > 0 then min speed_error max_speed_change
      else max speed_error (-max_speed_change)
    let new_speed := s2.airspeed + speed_change
    let new_speed :=
      if s2.flight_phase = .cruise then max 80 (min new_speed (fp.cruise_speed * (11/10)))
      else if s2.flight_phase = .climb then max 70 (min new_speed 120)
      else if s2.flight_phase = .descent then max 90 (min new_speed 150)
      else if s2.flight_phase = .approach then max 65 (min new_speed 100)
      else new_speed
    { s2 with airspeed := new_speed }
  else s2

/-- `_apply_autopilot_correction`: heading control followed by
temperature-driven speed control, only when the autopilot is enabled
(`update_flight` guarantees `current_flight` is set; the plan is passed
explicitly, so the source's `phase == CRUISE and self.current_flight`
guard is the phase test alone). -/
def applyAutopilotCorrection (fp : FlightPlan) (dt : ℚ) (s : SimState) : SimState :=
  if !s.autopilot_enabled then s
  else autopilotSpeedControl fp dt (autopilotHeadingControl dt s)

/-- Nested `weather` dict of the status snapshot. -/
structure WeatherStatus where
  condition : String
  wind_direction : ℤ
  wind_speed : ℤ
  visibility : ℤ
deriving DecidableEq

/-- Nested `performance` dict of the status snapshot. -/
structure PerformanceStatus where
  course_deviations : ℕ
  alerts_count : ℕ
  fuel_efficiency : ℚ
deriving DecidableEq

/-- The dict returned by `_get_status`; the fields the source wraps in
`int(...)` are truncated integers. -/
structure Status where
  is_flying : Bool
  flight_phase : String
  elapsed_time : ℚ
  progress_percent : ℚ
  altitude : ℤ
  airspeed : ℤ
  heading : ℤ
  target_heading : ℤ
  engine_temp : ℤ
  fuel_remaining : ℚ
  off_course_distance : ℚ
  system_alerts : List String
  emergency_state : Bool
  weather : WeatherStatus
  performance : PerformanceStatus
deriving DecidableEq

/-- `_get_status`. -/
def getStatus (s : SimState) : Status :=
  { is_flying := s.is_flying,
    flight_phase := s.flight_phase.value,
    elapsed_time := s.elapsed_time,
    progress_percent := s.progress_percent,
    altitude := pytrunc s.altitude,
    airspeed := pytrunc s.airspeed,
    heading := pytrunc s.heading,
    target_heading := pytrunc s.target_heading,
    engine_temp := pytrunc s.engine_temp,
    fuel_remaining := s.fuel_remaining,
    off_course_distance := s.off_course_distance,
    system_alerts := s.system_alerts,
    emergency_state := s.emergency_state,
    weather := { condition := (match s.current_weather.condition with
                   | .clear => "clear"
                   | .lightWind => "light_wind"
                   | .moderateWind => "moderate_wind"
                   | .turbulence => "turbulence"
                   | .rain => "rain"),
                 wind_direction := s.current_weather.wind_direction,
                 wind_speed := s.current_weather.wind_speed,
                 visibility := s.current_weather.visibility },
    performance := { course_deviations := s.course_deviations,
                     alerts_count := s.system_alerts_count,
                     fuel_efficiency := s.fuel_efficiency } }

/-- The performance dict returned by `end_flight`. -/
structure PerformanceSummary where
  completed : Bool
  flight_time : ℚ
  course_deviations : ℕ
  system_alerts : ℕ
  fuel_efficiency : ℚ
  emergency_landing : Bool
  final_progress : ℚ
deriving DecidableEq

/-- `end_flight`: `none` (the empty dict) when not flying, otherwise the
performance summary, with the flying flag and flight reference cleared. -/
def endFlight (s : SimState) : Option PerformanceSummary × SimState :=
  if !s.is_flying then (none, s)
  else
    (some { completed := decide (s.flight_phase = .completed),
            flight_time := s.elapsed_time,
            course_deviations := s.course_deviations,
            system_alerts := s.system_alerts_count,
            fuel_efficiency := s.fuel_efficiency,
            emergency_landing := s.emergency_state,
            final_progress := s.progress_percent },
     { s with is_flying := false, current_flight := none })

/-- The `time.time()` read and random draws consumed by one
`update_flight` tick. -/
structure TickOracle where
  now : ℚ
  tempNoise : ℚ
  weatherEvent : Option WeatherGen
deriving DecidableEq

/-- `update_flight`: early-out snapshot when not flying or without a
flight, otherwise the fixed
Phase→Aircraft→Drift→Autopilot→Position→Systems→Weather pipeline on the
advanced clock, returning the new state and its snapshot. -/
def updateFlight (M : MathFns) (o : TickOracle) (dt : ℚ) (s : SimState) :
    SimState × Status :=
  match s.current_flight with
  | none => (s, getStatus s)
  | some fp =>
    if !s.is_flying then (s, getStatus s)
    else
      let s1 : SimState := { s with elapsed_time := s.elapsed_time + dt }
      let s2 := updateFlightPhase s1
      let s3 := updateAircraftState fp dt s2
      let s4 := applyDriftMechanics o.now dt s3
      let s5 := applyAutopilotCorrection fp dt s4
      let s6 := updatePosition M dt s5
      let s7 := checkSystems o.tempNoise s6
      let s8 := updateWeatherEffects M o.weatherEvent s7
      (s8, getStatus s8)

/-- Folding a whole sequence of `update_flight` calls over a state. -/
def runUpdates (M : MathFns) : List (ℚ × TickOracle) → SimState → SimState
  | [], s => s
  | (dt, o) :: rest, s => runUpdates M rest (updateFlight M o dt s).1

/-- The composed flying-path pipeline of `update_flight` (after the
clock advance), as one function of the state. -/
def updatePipeline (M : MathFns) (o : TickOracle) (dt : ℚ) (fp : FlightPlan) (s : SimState) :
    SimState :=
  updateWeatherEffects M o.weatherEvent
    (checkSystems o.tempNoise
      (updatePosition M dt
        (applyAutopilotCorrection fp dt
          (applyDriftMechanics o.now dt
            (updateAircraftState fp dt
              (updateFlightPhase { s with elapsed_time := s.elapsed_time + dt }))))))

/-- Spec-side rendering of the phase table: the thresholds in the order
the spec lists them, each paired with its phase. -/
def phaseThresholds (total : ℚ) : List (ℚ × FlightPhase) :=
  [(180, .taxi), (300, .takeoff), (900, .climb),
   (total - 900, .cruise), (total - 300, .descent),
   (total - 120, .approach), (total, .landing)]

/-- Spec-side first-match scan of the threshold list; `COMPLETED` when no
threshold matches. -/
def firstMatch (e : ℚ) : List (ℚ × FlightPhase) → FlightPhase
  | [] => .completed
  | (t, p) :: rest => if e < t then p else firstMatch e rest

/-- Spec-side phase function: first match over the listed thresholds. -/
def phaseOfSpec (e total : ℚ) : FlightPhase :=
  firstMatch e (phaseThresholds total)

/-- Circular distance between two heading angles (degrees, mod 360). -/
def circDist (a b : ℚ) : ℚ := min |a - b| (360 - |a - b|)

/-- The signed shortest-direction error between two plain angles:
`target - heading` folded into `(-180, 180]`, the same computation as
`signedHeadingError` but on bare rationals. -/
def signedErr (heading target : ℚ) : ℚ :=
  let e0 := target - heading
  if e0 > 180 then e0 - 360 else if e0 < -180 then e0 + 360 else e0

/-! ### Python float special values

The two NaN-robustness claims are about what the source does when a NaN
or Infinity reaches `apply_course_correction`, the drift heading update,
or `_get_status`. `PyF` makes the float special values explicit; the
functions below re-embed exactly those source lines over `PyF`. -/

/-- A Python float: a finite value, NaN, or a signed infinity. -/
inductive PyF where
  | fin : ℚ → PyF
  | nan : PyF
  | posInf : PyF
  | negInf : PyF
deriving DecidableEq

/-- IEEE-754 addition on `PyF` (overflow to infinity ignored: the inputs
used stay far below the float range). -/
def PyF.add : PyF → PyF → PyF
  | .nan, _ => .nan
  | _, .nan => .nan
  | .posInf, .negInf => .nan
  | .negInf, .posInf => .nan
  | .posInf, _ => .posInf
  | _, .posInf => .posInf
  | .negInf, _ => .negInf
  | _, .negInf => .negInf
  | .fin a, .fin b => .fin (a + b)

/-- IEEE-754 multiplication on `PyF`, for the drift scaling (zero times
infinity is NaN; sign bookkeeping is exact for the finite cases used). -/
def PyF.mul : PyF → PyF → PyF
  | .nan, _ => .nan
  | _, .nan => .nan
  | .fin a, .fin b => .fin (a * b)
  | .posInf, .posInf => .posInf
  | .posInf, .negInf => .negInf
  | .negInf, .posInf => .negInf
  | .negInf, .negInf => .posInf
  | .fin a, .posInf => if a = 0 then .nan else if 0 < a then .posInf else .negInf
  | .fin a, .negInf => if a = 0 then .nan else if 0 < a then .negInf else .posInf
  | .posInf, .fin a => if a = 0 then .nan else if 0 < a then .posInf else .negInf
  | .negInf, .fin a => if a = 0 then .nan else if 0 < a then .negInf else .posInf

/-- Python `x % m` on floats for a finite positive modulus: NaN and
infinities propagate to NaN. -/
def PyF.pymodF (x : PyF) (m : ℚ) : PyF :=
  match x with
  | .fin q => .fin (pymod q m)
  | _ => .nan

/-- Python `int(x)` on a float: raises `ValueError` on NaN and
`OverflowError` on infinities, truncates otherwise. -/
def PyF.toInt : PyF → Except String ℤ
  | .fin q => .ok (pytrunc q)
  | .nan => .error "ValueError"
  | .posInf => .error "OverflowError"
  | .negInf => .error "OverflowError"

/-- Is this float finite and a valid normalized heading? -/
def PyF.finiteInRange : PyF → Bool
  | .fin q => decide (0 ≤ q ∧ q < 360)
  | _ => false

/-- `apply_course_correction` over Python floats: the heading after
`self.heading += correction_degrees; self.heading %= 360` (lines
486-487). -/
def applyCourseCorrectionF (heading correction_degrees : PyF) : PyF :=
  (heading.add correction_degrees).pymodF 360

/-- The heading update of `_apply_drift_mechanics` (lines 340-350) over
Python floats: `drift_rate*dt*mult + crosswind*wind_mult*dt` added to the
heading and folded by `% 360`. -/
def driftHeadingF (autopilot : Bool) (drift_rate crosswind heading : PyF) (dt : ℚ) : PyF :=
  let drift_multiplier : ℚ := if autopilot then 3/10 else 5/10
  let base_drift := (drift_rate.mul (.fin dt)).mul (.fin drift_multiplier)
  let wind_multiplier : ℚ := if autopilot then 1/100 else 2/100
  let wind_effect := (crosswind.mul (.fin wind_multiplier)).mul (.fin dt)
  (heading.add (base_drift.add wind_effect)).pymodF 360

/-- The `int(...)` conversions of `_get_status` (lines 583-587) over
Python floats, in the order the dict literal evaluates them: the first
non-finite value raises out of `_get_status`. -/
def statusIntsF (altitude airspeed heading target_heading engine_temp : PyF) :
    Except String (ℤ × ℤ × ℤ × ℤ × ℤ) := do
  let a ← altitude.toInt
  let sp ← airspeed.toInt
  let h ← heading.toInt
  let t ← target_heading.toInt
  let e ← engine_temp.toInt
  return (a, sp, h, t, e)

/-! ### Concrete fixtures for closed evaluations -/

/-- A single-engine test flight plan (northern hemisphere, one hour). -/
def fpTest : FlightPlan :=
  { departure := { name := "NYC", coordinates := (407/10, -739/10) },
    destination := { name := "ORD", coordinates := (419/10, -876/10) },
    aircraft_type := "SINGLE_ENGINE_PROPS",
    distance_nm := 500,
    estimated_time_minutes := 60,
    cruise_altitude := 6500,
    cruise_speed := 120,
    fuel_required := 600 }

/-- A short plan: 20 estimated minutes, so 1200 seconds total. -/
def fpShort : FlightPlan :=
  { departure := { name := "A", coordinates := (40, -74) },
    destination := { name := "B", coordinates := (41, -75) },
    aircraft_type := "SINGLE_ENGINE_PROPS",
    distance_nm := 90,
    estimated_time_minutes := 20,
    cruise_altitude := 6500,
    cruise_speed := 120,
    fuel_required := 108 }

/-- A plan whose departure and destination lie in the southern
hemisphere (negative latitudes). -/
def fpSouth : FlightPlan :=
  { departure := { name := "SYD", coordinates := (-339/10, 1512/10) },
    destination := { name := "MEL", coordinates := (-378/10, 1449/10) },
    aircraft_type := "SINGLE_ENGINE_PROPS",
    distance_nm := 400,
    estimated_time_minutes := 60,
    cruise_altitude := 6500,
    cruise_speed := 120,
    fuel_required := 480 }

/-- Fixed weather draws (clear, no effect on drift rate). -/
def g0 : WeatherGen :=
  { condition := .clear, wind_direction := 100, wind_speed := 10,
    visibility := 5, temperature := 70 }

/-- Fixed `start_flight` oracle. -/
def so0 : StartOracle := { now := 0, driftRand := 1/5, weatherGen := g0 }

/-- Fixed `update_flight` oracle: no weather regeneration, no
temperature noise. -/
def to0 : TickOracle := { now := 0, tempNoise := 0, weatherEvent := none }

/-- A mid-cruise state with autopilot engaged, heading 90° off target,
with a plausible in-flight drift rate (`0.2`, within
`uniform(0.1,0.3)·1.0`) and crosswind (`20`, within
`wind_speed∈[5,25]` times a sine). Used for the autopilot scenario. -/
def sCruise : SimState :=
  { current_flight := some fpTest,
    flight_phase := .cruise,
    is_flying := true,
    flight_start_time := 0,
    elapsed_time := 1000,
    altitude := 6500,
    airspeed := 120,
    heading := 0,
    target_heading := 90,
    engine_temp := 180,
    fuel_remaining := 80,
    autopilot_enabled := true,
    current_lat := 407/10,
    current_lng := -739/10,
    progress_percent := 10,
    drift_rate := 1/5,
    wind_effect := 0,
    last_correction_time := 0,
    off_course_distance := 0,
    current_weather := { condition := .clear, wind_direction := 100, wind_speed := 25,
                         crosswind_component := 20, visibility := 5, temperature := 70 },
    system_alerts := [],
    emergency_state := false,
    course_deviations := 0,
    system_alerts_count := 0,
    fuel_efficiency := 100,
    last_alert_time := 0 }

/-- The state right after starting `fpShort` from the initial state. -/
def sStart : SimState := (startFlight mathFns0 so0 fpShort (initState mathFns0 g0)).2

/-- A landing-phase state above the (southern-hemisphere) destination
field elevation of `fpSouth`. -/
def sLanding : SimState :=
  { sCruise with current_flight := some fpSouth, flight_phase := .landing, altitude := 100 }

/-! ### Helper lemmas: floored modulus -/

theorem ratFloor_eq_intFloor (q : ℚ) : (q.floor : ℤ) = ⌊q⌋ := by
  rw [Rat.floor_def', ← Rat.floor_def]

theorem pymod_eq_floor (x m : ℚ) : pymod x m = x - m * ⌊x / m⌋ := by
  unfold pymod
  rw [ratFloor_eq_intFloor]

theorem pymod_eq_mul_fract {m : ℚ} (hm : m ≠ 0) (x : ℚ) :
    pymod x m = m * Int.fract (x / m) := by
  rw [pymod_eq_floor]
  unfold Int.fract
  rw [mul_sub, mul_div_cancel₀ _ hm]

theorem pymod_nonneg {m : ℚ} (hm : 0 < m) (x : ℚ) : 0 ≤ pymod x m := by
  rw [pymod_eq_mul_fract hm.ne' x]
  exact mul_nonneg hm.le (Int.fract_nonneg _)

theorem pymod_lt {m : ℚ} (hm : 0 < m) (x : ℚ) : pymod x m < m := by
  rw [pymod_eq_mul_fract hm.ne' x]
  calc m * Int.fract (x / m) < m * 1 :=
        (mul_lt_mul_left hm).mpr (Int.fract_lt_one _)
    _ = m := mul_one m

theorem pymod_eq_self {m x : ℚ} (h0 : 0 ≤ x) (h1 : x < m) : pymod x m = x := by
  have hm : 0 < m := lt_of_le_of_lt h0 h1
  have hfloor : ⌊x / m⌋ = 0 := by
    rw [Int.floor_eq_zero_iff]
    constructor
    · exact div_nonneg h0 hm.le
    · rw [div_lt_one hm]
      exact h1
  rw [pymod_eq_floor, hfloor]
  ring

theorem pymod_neg_eq {m x : ℚ} (hm : 0 < m) (h0 : -m ≤ x) (h1 : x < 0) :
    pymod x m = x + m := by
  have hfloor : ⌊x / m⌋ = -1 := by
    rw [Int.floor_eq_iff]
    constructor
    · push_cast
      rw [le_div_iff₀ hm]
      linarith
    · push_cast
      rw [div_lt_iff₀ hm]
      linarith
  rw [pymod_eq_floor, hfloor]
  push_cast
  ring

theorem pymod_shift {m x : ℚ} (h0 : m ≤ x) (h1 : x < 2 * m) (hm : 0 < m) :
    pymod x m = x - m := by
  have hfloor : ⌊x / m⌋ = 1 := by
    rw [Int.floor_eq_iff]
    constructor
    · push_cast
      rw [le_div_iff₀ hm]
      linarith
    · push_cast
      rw [div_lt_iff₀ hm]
      linarith
  rw [pymod_eq_floor, hfloor]
  ring

/-! ### Frame lemmas for the pipeline steps

`fieldsA` collects the fields none of the six post-phase pipeline steps
ever writes. -/

def fieldsA (s : SimState) :
    FlightPhase × Bool × Option FlightPlan × ℚ × Bool × ℚ :=
  (s.flight_phase, s.is_flying, s.current_flight, s.target_heading,
   s.autopilot_enabled, s.elapsed_time)

theorem fieldsA_updateAircraftState (fp : FlightPlan) (dt : ℚ) (s : SimState) :
    fieldsA (updateAircraftState fp dt s) = fieldsA s := by
  unfold updateAircraftState
  simp only []
  repeat' split
  all_goals rfl

theorem fieldsA_driftApplyHeading (dt : ℚ) (s : SimState) :
    fieldsA (driftApplyHeading dt s) = fieldsA s := rfl

theorem fieldsA_driftTrackDeviation (now dt : ℚ) (s : SimState) :
    fieldsA (driftTrackDeviation now dt s) = fieldsA s := by
  unfold driftTrackDeviation
  simp only []
  repeat' split
  all_goals rfl

theorem fieldsA_applyDriftMechanics (now dt : ℚ) (s : SimState) :
    fieldsA (applyDriftMechanics now dt s) = fieldsA s := by
  unfold applyDriftMechanics
  split
  · rfl
  · rw [fieldsA_driftTrackDeviation, fieldsA_driftApplyHeading]

theorem fieldsA_autopilotHeadingControl (dt : ℚ) (s : SimState) :
    fieldsA (autopilotHeadingControl dt s) = fieldsA s := by
  unfold autopilotHeadingControl
  simp only []
  repeat' split
  all_goals rfl

theorem fieldsA_autopilotSpeedControl (fp : FlightPlan) (dt : ℚ) (s : SimState) :
    fieldsA (autopilotSpeedControl fp dt s) = fieldsA s := by
  unfold autopilotSpeedControl
  simp only []
  simp only [fieldsA, apply_ite SimState.flight_phase, apply_ite SimState.is_flying,
    apply_ite SimState.current_flight, apply_ite SimState.target_heading,
    apply_ite SimState.autopilot_enabled, apply_ite SimState.elapsed_time, ite_self]

theorem fieldsA_applyAutopilotCorrection (fp : FlightPlan) (dt : ℚ) (s : SimState) :
    fieldsA (applyAutopilotCorrection fp dt s) = fieldsA s := by
  unfold applyAutopilotCorrection
  split
  · rfl
  · rw [fieldsA_autopilotSpeedControl, fieldsA_autopilotHeadingControl]

theorem fieldsA_updatePosition (M : MathFns) (dt : ℚ) (s : SimState) :
    fieldsA (updatePosition M dt s) = fieldsA s := by
  unfold updatePosition
  repeat' split
  all_goals rfl

theorem fieldsA_checkTempUpdate (noise : ℚ) (s : SimState) :
    fieldsA (checkTempUpdate noise s) = fieldsA s := by
  unfold checkTempUpdate
  repeat' split
  all_goals rfl

theorem fieldsA_checkTempAlerts (s : SimState) :
    fieldsA (checkTempAlerts s) = fieldsA s := by
  unfold checkTempAlerts
  repeat' split
  all_goals rfl

theorem fieldsA_checkFuelAlerts (s : SimState) :
    fieldsA (checkFuelAlerts s) = fieldsA s := by
  unfold checkFuelAlerts
  simp only []
  repeat' split
  all_goals rfl

theorem fieldsA_checkSystems (noise : ℚ) (s : SimState) :
    fieldsA (checkSystems noise s) = fieldsA s := by
  unfold checkSystems
  rw [fieldsA_checkFuelAlerts, fieldsA_checkTempAlerts, fieldsA_checkTempUpdate]

theorem fieldsA_updateWeatherEffects (M : MathFns) (event : Option WeatherGen) (s : SimState) :
    fieldsA (updateWeatherEffects M event s) = fieldsA s := by
  unfold updateWeatherEffects
  simp only []
  repeat' split
  all_goals rfl

theorem fieldsA_phase {s t : SimState} (h : fieldsA s = fieldsA t) :
    s.flight_phase = t.flight_phase := congrArg (fun x => x.1) h

theorem fieldsA_fly {s t : SimState} (h : fieldsA s = fieldsA t) :
    s.is_flying = t.is_flying := congrArg (fun x => x.2.1) h

theorem fieldsA_cf {s t : SimState} (h : fieldsA s = fieldsA t) :
    s.current_flight = t.current_flight := congrArg (fun x => x.2.2.1) h

theorem fieldsA_th {s t : SimState} (h : fieldsA s = fieldsA t) :
    s.target_heading = t.target_heading := congrArg (fun x => x.2.2.2.1) h

theorem fieldsA_ap {s t : SimState} (h : fieldsA s = fieldsA t) :
    s.autopilot_enabled = t.autopilot_enabled := congrArg (fun x => x.2.2.2.2.1) h

/-- fieldsA of the whole post-phase pipeline tail is that of the
phase-updated state. -/
theorem fieldsA_pipeline_tail (M : MathFns) (o : TickOracle) (dt : ℚ) (fp : FlightPlan)
    (s : SimState) :
    fieldsA (updatePipeline M o dt fp s) =
      fieldsA (updateFlightPhase { s with elapsed_time := s.elapsed_time + dt }) := by
  unfold updatePipeline
  rw [fieldsA_updateWeatherEffects, fieldsA_checkSystems, fieldsA_updatePosition,
    fieldsA_applyAutopilotCorrection, fieldsA_applyDriftMechanics, fieldsA_updateAircraftState]

/-! ### `update_flight` unfolding lemmas -/

theorem updateFlight_not_flying (M : MathFns) (o : TickOracle) (dt : ℚ) {s : SimState}
    (h : s.is_flying = false) : updateFlight M o dt s = (s, getStatus s) := by
  unfold updateFlight
  cases hc : s.current_flight with
  | none => rfl
  | some fp => simp [h]

theorem updateFlight_flying (M : MathFns) (o : TickOracle) (dt : ℚ) {s : SimState}
    {fp : FlightPlan} (hfp : s.current_flight = some fp) (hfly : s.is_flying = true) :
    updateFlight M o dt s =
      (updatePipeline M o dt fp s, getStatus (updatePipeline M o dt fp s)) := by
  unfold updateFlight updatePipeline
  rw [hfp]
  simp only [hfly, Bool.not_true, Bool.false_eq_true, if_false]

/-! ### `_update_flight_phase` characterization -/

/-- `_update_flight_phase` writes only `flight_phase` and `is_flying`. -/
theorem updateFlightPhase_frame (s : SimState) :
    ((updateFlightPhase s).heading, (updateFlightPhase s).target_heading,
     (updateFlightPhase s).autopilot_enabled, (updateFlightPhase s).drift_rate,
     (updateFlightPhase s).current_weather, (updateFlightPhase s).fuel_remaining,
     (updateFlightPhase s).engine_temp, (updateFlightPhase s).current_flight,
     (updateFlightPhase s).elapsed_time, (updateFlightPhase s).airspeed,
     (updateFlightPhase s).altitude, (updateFlightPhase s).system_alerts) =
    (s.heading, s.target_heading, s.autopilot_enabled, s.drift_rate,
     s.current_weather, s.fuel_remaining, s.engine_temp, s.current_flight,
     s.elapsed_time, s.airspeed, s.altitude, s.system_alerts) := by
  unfold updateFlightPhase
  simp only []
  repeat' split
  all_goals rfl

/-- The phase written by `_update_flight_phase` is the first-match scan
of the spec's threshold list, and the flying flag is cleared exactly on
the `COMPLETED` branch. -/
theorem updateFlightPhase_spec {s : SimState} {fp : FlightPlan}
    (h : s.current_flight = some fp) :
    (updateFlightPhase s).flight_phase =
      phaseOfSpec s.elapsed_time ((fp.estimated_time_minutes : ℚ) * 60) ∧
    (updateFlightPhase s).is_flying =
      (if phaseOfSpec s.elapsed_time ((fp.estimated_time_minutes : ℚ) * 60) = .completed
       then false else s.is_flying) := by
  unfold updateFlightPhase
  rw [h]
  simp only [phaseOfSpec, phaseThresholds, firstMatch]
  split_ifs <;> simp_all

/-! ### Per-field frame lemmas for the pipeline steps -/

theorem updateFlightPhase_keeps_fuel_remaining (s : SimState) :
    (updateFlightPhase s).fuel_remaining = s.fuel_remaining := by
  unfold updateFlightPhase
  simp only []
  repeat' split
  all_goals rfl

theorem updateFlightPhase_keeps_engine_temp (s : SimState) :
    (updateFlightPhase s).engine_temp = s.engine_temp := by
  unfold updateFlightPhase
  simp only []
  repeat' split
  all_goals rfl

theorem updateFlightPhase_keeps_heading (s : SimState) :
    (updateFlightPhase s).heading = s.heading := by
  unfold updateFlightPhase
  simp only []
  repeat' split
  all_goals rfl

theorem updateFlightPhase_keeps_target_heading (s : SimState) :
    (updateFlightPhase s).target_heading = s.target_heading := by
  unfold updateFlightPhase
  simp only []
  repeat' split
  all_goals rfl

theorem updateFlightPhase_keeps_autopilot_enabled (s : SimState) :
    (updateFlightPhase s).autopilot_enabled = s.autopilot_enabled := by
  unfold updateFlightPhase
  simp only []
  repeat' split
  all_goals rfl

theorem updateFlightPhase_keeps_drift_rate (s : SimState) :
    (updateFlightPhase s).drift_rate = s.drift_rate := by
  unfold updateFlightPhase
  simp only []
  repeat' split
  all_goals rfl

theorem updateFlightPhase_keeps_current_weather (s : SimState) :
    (updateFlightPhase s).current_weather = s.current_weather := by
  unfold updateFlightPhase
  simp only []
  repeat' split
  all_goals rfl

theorem updateFlightPhase_keeps_current_flight (s : SimState) :
    (updateFlightPhase s).current_flight = s.current_flight := by
  unfold updateFlightPhase
  simp only []
  repeat' split
  all_goals rfl

theorem updateFlightPhase_keeps_elapsed_time (s : SimState) :
    (updateFlightPhase s).elapsed_time = s.elapsed_time := by
  unfold updateFlightPhase
  simp only []
  repeat' split
  all_goals rfl

theorem updateAircraftState_keeps_engine_temp (fp : FlightPlan) (dt : ℚ) (s : SimState) :
    (updateAircraftState fp dt s).engine_temp = s.engine_temp := by
  unfold updateAircraftState
  simp only []
  repeat' split
  all_goals rfl

theorem updateAircraftState_keeps_heading (fp : FlightPlan) (dt : ℚ) (s : SimState) :
    (updateAircraftState fp dt s).heading = s.heading := by
  unfold updateAircraftState
  simp only []
  repeat' split
  all_goals rfl

theorem updateAircraftState_keeps_target_heading (fp : FlightPlan) (dt : ℚ) (s : SimState) :
    (updateAircraftState fp dt s).target_heading = s.target_heading := by
  unfold updateAircraftState
  simp only []
  repeat' split
  all_goals rfl

theorem updateAircraftState_keeps_autopilot_enabled (fp : FlightPlan) (dt : ℚ) (s : SimState) :
    (updateAircraftState fp dt s).autopilot_enabled = s.autopilot_enabled := by
  unfold updateAircraftState
  simp only []
  repeat' split
  all_goals rfl

theorem updateAircraftState_keeps_drift_rate (fp : FlightPlan) (dt : ℚ) (s : SimState) :
    (updateAircraftState fp dt s).drift_rate = s.drift_rate := by
  unfold updateAircraftState
  simp only []
  repeat' split
  all_goals rfl

theorem updateAircraftState_keeps_current_weather (fp : FlightPlan) (dt : ℚ) (s : SimState) :
    (updateAircraftState fp dt s).current_weather = s.current_weather := by
  unfold updateAircraftState
  simp only []
  repeat' split
  all_goals rfl

theorem updateAircraftState_keeps_current_flight (fp : FlightPlan) (dt : ℚ) (s : SimState) :
    (updateAircraftState fp dt s).current_flight = s.current_flight := by
  unfold updateAircraftState
  simp only []
  repeat' split
  all_goals rfl

theorem driftTrackDeviation_keeps_fuel_remaining (now dt : ℚ) (s : SimState) :
    (driftTrackDeviation now dt s).fuel_remaining = s.fuel_remaining := by
  unfold driftTrackDeviation
  simp only []
  repeat' split
  all_goals rfl

theorem driftTrackDeviation_keeps_engine_temp (now dt : ℚ) (s : SimState) :
    (driftTrackDeviation now dt s).engine_temp = s.engine_temp := by
  unfold driftTrackDeviation
  simp only []
  repeat' split
  all_goals rfl

theorem driftTrackDeviation_keeps_heading (now dt : ℚ) (s : SimState) :
    (driftTrackDeviation now dt s).heading = s.heading := by
  unfold driftTrackDeviation
  simp only []
  repeat' split
  all_goals rfl

theorem driftTrackDeviation_keeps_current_flight (now dt : ℚ) (s : SimState) :
    (driftTrackDeviation now dt s).current_flight = s.current_flight := by
  unfold driftTrackDeviation
  simp only []
  repeat' split
  all_goals rfl

theorem driftTrackDeviation_keeps_target_heading (now dt : ℚ) (s : SimState) :
    (driftTrackDeviation now dt s).target_heading = s.target_heading := by
  unfold driftTrackDeviation
  simp only []
  repeat' split
  all_goals rfl

theorem driftTrackDeviation_keeps_autopilot_enabled (now dt : ℚ) (s : SimState) :
    (driftTrackDeviation now dt s).autopilot_enabled = s.autopilot_enabled := by
  unfold driftTrackDeviation
  simp only []
  repeat' split
  all_goals rfl

theorem autopilotHeadingControl_keeps_fuel_remaining (dt : ℚ) (s : SimState) :
    (autopilotHeadingControl dt s).fuel_remaining = s.fuel_remaining := by
  unfold autopilotHeadingControl
  simp only []
  repeat' split
  all_goals rfl

theorem autopilotHeadingControl_keeps_engine_temp (dt : ℚ) (s : SimState) :
    (autopilotHeadingControl dt s).engine_temp = s.engine_temp := by
  unfold autopilotHeadingControl
  simp only []
  repeat' split
  all_goals rfl

theorem autopilotHeadingControl_keeps_current_flight (dt : ℚ) (s : SimState) :
    (autopilotHeadingControl dt s).current_flight = s.current_flight := by
  unfold autopilotHeadingControl
  simp only []
  repeat' split
  all_goals rfl

theorem autopilotSpeedControl_keeps_fuel_remaining (fp : FlightPlan) (dt : ℚ) (s : SimState) :
    (autopilotSpeedControl fp dt s).fuel_remaining = s.fuel_remaining := by
  unfold autopilotSpeedControl
  simp only []
  simp only [apply_ite SimState.fuel_remaining, ite_self]

theorem autopilotSpeedControl_keeps_engine_temp (fp : FlightPlan) (dt : ℚ) (s : SimState) :
    (autopilotSpeedControl fp dt s).engine_temp = s.engine_temp := by
  unfold autopilotSpeedControl
  simp only []
  simp only [apply_ite SimState.engine_temp, ite_self]

theorem autopilotSpeedControl_keeps_heading (fp : FlightPlan) (dt : ℚ) (s : SimState) :
    (autopilotSpeedControl fp dt s).heading = s.heading := by
  unfold autopilotSpeedControl
  simp only []
  simp only [apply_ite SimState.heading, ite_self]

theorem autopilotSpeedControl_keeps_current_flight (fp : FlightPlan) (dt : ℚ) (s : SimState) :
    (autopilotSpeedControl fp dt s).current_flight = s.current_flight := by
  unfold autopilotSpeedControl
  simp only []
  simp only [apply_ite SimState.current_flight, ite_self]

theorem updatePosition_keeps_fuel_remaining (M : MathFns) (dt : ℚ) (s : SimState) :
    (updatePosition M dt s).fuel_remaining = s.fuel_remaining := by
  unfold updatePosition
  simp only []
  repeat' split
  all_goals rfl

theorem updatePosition_keeps_engine_temp (M : MathFns) (dt : ℚ) (s : SimState) :
    (updatePosition M dt s).engine_temp = s.engine_temp := by
  unfold updatePosition
  simp only []
  repeat' split
  all_goals rfl

theorem updatePosition_keeps_heading (M : MathFns) (dt : ℚ) (s : SimState) :
    (updatePosition M dt s).heading = s.heading := by
  unfold updatePosition
  simp only []
  repeat' split
  all_goals rfl

theorem checkTempUpdate_keeps_fuel_remaining (noise : ℚ) (s : SimState) :
    (checkTempUpdate noise s).fuel_remaining = s.fuel_remaining := by
  unfold checkTempUpdate
  simp only []
  repeat' split
  all_goals rfl

theorem checkTempUpdate_keeps_heading (noise : ℚ) (s : SimState) :
    (checkTempUpdate noise s).heading = s.heading := by
  unfold checkTempUpdate
  simp only []
  repeat' split
  all_goals rfl

theorem checkTempAlerts_keeps_fuel_remaining (s : SimState) :
    (checkTempAlerts s).fuel_remaining = s.fuel_remaining := by
  unfold checkTempAlerts
  repeat' split
  all_goals rfl

theorem checkTempAlerts_keeps_engine_temp (s : SimState) :
    (checkTempAlerts s).engine_temp = s.engine_temp := by
  unfold checkTempAlerts
  repeat' split
  all_goals rfl

theorem checkTempAlerts_keeps_heading (s : SimState) :
    (checkTempAlerts s).heading = s.heading := by
  unfold checkTempAlerts
  repeat' split
  all_goals rfl

theorem checkFuelAlerts_keeps_fuel_remaining (s : SimState) :
    (checkFuelAlerts s).fuel_remaining = s.fuel_remaining := by
  unfold checkFuelAlerts
  simp only []
  repeat' split
  all_goals rfl

theorem checkFuelAlerts_keeps_engine_temp (s : SimState) :
    (checkFuelAlerts s).engine_temp = s.engine_temp := by
  unfold checkFuelAlerts
  simp only []
  repeat' split
  all_goals rfl

theorem checkFuelAlerts_keeps_heading (s : SimState) :
    (checkFuelAlerts s).heading = s.heading := by
  unfold checkFuelAlerts
  simp only []
  repeat' split
  all_goals rfl

theorem updateWeatherEffects_keeps_fuel_remaining (M : MathFns) (event : Option WeatherGen) (s : SimState) :
    (updateWeatherEffects M event s).fuel_remaining = s.fuel_remaining := by
  unfold updateWeatherEffects
  simp only []
  repeat' split
  all_goals rfl

theorem updateWeatherEffects_keeps_engine_temp (M : MathFns) (event : Option WeatherGen) (s : SimState) :
    (updateWeatherEffects M event s).engine_temp = s.engine_temp := by
  unfold updateWeatherEffects
  simp only []
  repeat' split
  all_goals rfl

theorem updateWeatherEffects_keeps_heading (M : MathFns) (event : Option WeatherGen) (s : SimState) :
    (updateWeatherEffects M event s).heading = s.heading := by
  unfold updateWeatherEffects
  simp only []
  repeat' split
  all_goals rfl

/-! ### Composite keeps-lemmas -/

theorem driftApplyHeading_keeps_fuel_remaining (dt : ℚ) (s : SimState) :
    (driftApplyHeading dt s).fuel_remaining = s.fuel_remaining := rfl

theorem driftApplyHeading_keeps_engine_temp (dt : ℚ) (s : SimState) :
    (driftApplyHeading dt s).engine_temp = s.engine_temp := rfl

theorem applyDriftMechanics_keeps_fuel_remaining (now dt : ℚ) (s : SimState) :
    (applyDriftMechanics now dt s).fuel_remaining = s.fuel_remaining := by
  unfold applyDriftMechanics
  split
  · rfl
  · rw [driftTrackDeviation_keeps_fuel_remaining, driftApplyHeading_keeps_fuel_remaining]

theorem applyDriftMechanics_keeps_engine_temp (now dt : ℚ) (s : SimState) :
    (applyDriftMechanics now dt s).engine_temp = s.engine_temp := by
  unfold applyDriftMechanics
  split
  · rfl
  · rw [driftTrackDeviation_keeps_engine_temp, driftApplyHeading_keeps_engine_temp]

theorem applyAutopilotCorrection_keeps_fuel_remaining (fp : FlightPlan) (dt : ℚ) (s : SimState) :
    (applyAutopilotCorrection fp dt s).fuel_remaining = s.fuel_remaining := by
  unfold applyAutopilotCorrection
  split
  · rfl
  · rw [autopilotSpeedControl_keeps_fuel_remaining, autopilotHeadingControl_keeps_fuel_remaining]

theorem applyAutopilotCorrection_keeps_engine_temp (fp : FlightPlan) (dt : ℚ) (s : SimState) :
    (applyAutopilotCorrection fp dt s).engine_temp = s.engine_temp := by
  unfold applyAutopilotCorrection
  split
  · rfl
  · rw [autopilotSpeedControl_keeps_engine_temp, autopilotHeadingControl_keeps_engine_temp]

theorem checkSystems_keeps_fuel_remaining (noise : ℚ) (s : SimState) :
    (checkSystems noise s).fuel_remaining = s.fuel_remaining := by
  unfold checkSystems
  rw [checkFuelAlerts_keeps_fuel_remaining, checkTempAlerts_keeps_fuel_remaining,
    checkTempUpdate_keeps_fuel_remaining]

theorem checkSystems_keeps_heading (noise : ℚ) (s : SimState) :
    (checkSystems noise s).heading = s.heading := by
  unfold checkSystems
  rw [checkFuelAlerts_keeps_heading, checkTempAlerts_keeps_heading,
    checkTempUpdate_keeps_heading]

/-! ### Fuel and temperature computation lemmas -/

theorem max_fuel_bounds {f r : ℚ} (h0 : 0 ≤ f) (h1 : f ≤ 100) (hr : 0 ≤ r) :
    0 ≤ max 0 (f - r) ∧ max 0 (f - r) ≤ 100 :=
  ⟨le_max_left 0 _, max_le (by norm_num) (by linarith)⟩

/-- Fuel only burns (clamped at 0) in `_update_aircraft_state`, so it
stays within `[0,100]`. -/
theorem updateAircraftState_fuel (fp : FlightPlan) {dt : ℚ} (s : SimState) (hdt : 0 ≤ dt)
    (h0 : 0 ≤ s.fuel_remaining) (h1 : s.fuel_remaining ≤ 100) :
    0 ≤ (updateAircraftState fp dt s).fuel_remaining ∧
      (updateAircraftState fp dt s).fuel_remaining ≤ 100 := by
  have hr : (0 : ℚ) ≤ 2/100 * dt := by positivity
  unfold updateAircraftState
  simp only []
  repeat' split
  all_goals first
    | exact ⟨h0, h1⟩
    | exact max_fuel_bounds h0 h1 hr

/-- The clamp in `_check_systems` keeps the temperature within
`[160,250]` regardless of the noise draw or previous value. -/
theorem checkTempUpdate_temp_bounds (noise : ℚ) (s : SimState) :
    160 ≤ (checkTempUpdate noise s).engine_temp ∧
      (checkTempUpdate noise s).engine_temp ≤ 250 := by
  unfold checkTempUpdate
  simp only []
  exact ⟨le_max_left _ _, max_le (by norm_num) (min_le_left _ _)⟩

theorem checkSystems_temp_bounds (noise : ℚ) (s : SimState) :
    160 ≤ (checkSystems noise s).engine_temp ∧ (checkSystems noise s).engine_temp ≤ 250 := by
  unfold checkSystems
  rw [checkFuelAlerts_keeps_engine_temp, checkTempAlerts_keeps_engine_temp]
  exact checkTempUpdate_temp_bounds noise s

theorem updateFlight_no_flight (M : MathFns) (o : TickOracle) (dt : ℚ) {s : SimState}
    (h : s.current_flight = none) : updateFlight M o dt s = (s, getStatus s) := by
  unfold updateFlight
  rw [h]

/-- One `update_flight` call preserves the fuel/temperature invariant
for any nonnegative `dt` and any oracle draws. -/
theorem fuelTempInv_updateFlight (M : MathFns) (o : TickOracle) {dt : ℚ} (s : SimState)
    (hdt : 0 ≤ dt) (hf0 : 0 ≤ s.fuel_remaining) (hf1 : s.fuel_remaining ≤ 100)
    (ht0 : 160 ≤ s.engine_temp) (ht1 : s.engine_temp ≤ 250) :
    (0 ≤ (updateFlight M o dt s).1.fuel_remaining ∧
      (updateFlight M o dt s).1.fuel_remaining ≤ 100) ∧
    (160 ≤ (updateFlight M o dt s).1.engine_temp ∧
      (updateFlight M o dt s).1.engine_temp ≤ 250) := by
  cases hfly : s.is_flying with
  | false =>
    rw [updateFlight_not_flying M o dt hfly]
    exact ⟨⟨hf0, hf1⟩, ht0, ht1⟩
  | true =>
    cases hcf : s.current_flight with
    | none =>
      rw [updateFlight_no_flight M o dt hcf]
      exact ⟨⟨hf0, hf1⟩, ht0, ht1⟩
    | some fp =>
      rw [updateFlight_flying M o dt hcf hfly]
      unfold updatePipeline
      constructor
      · rw [updateWeatherEffects_keeps_fuel_remaining, checkSystems_keeps_fuel_remaining,
          updatePosition_keeps_fuel_remaining, applyAutopilotCorrection_keeps_fuel_remaining,
          applyDriftMechanics_keeps_fuel_remaining]
        apply updateAircraftState_fuel fp _ hdt
        · rw [updateFlightPhase_keeps_fuel_remaining]
          exact hf0
        · rw [updateFlightPhase_keeps_fuel_remaining]
          exact hf1
      · rw [updateWeatherEffects_keeps_engine_temp]
        exact checkSystems_temp_bounds _ _

theorem updateAircraftState_fuel_le (fp : FlightPlan) {dt : ℚ} (s : SimState) (hdt : 0 ≤ dt)
    (h0 : 0 ≤ s.fuel_remaining) :
    (updateAircraftState fp dt s).fuel_remaining ≤ s.fuel_remaining := by
  have hr : (0 : ℚ) ≤ 2/100 * dt := by positivity
  unfold updateAircraftState
  simp only []
  repeat' split
  all_goals first
    | exact le_refl _
    | exact max_le h0 (by linarith)

theorem updateFlight_fuel_le (M : MathFns) (o : TickOracle) {dt : ℚ} (s : SimState)
    (hdt : 0 ≤ dt) (h0 : 0 ≤ s.fuel_remaining) :
    (updateFlight M o dt s).1.fuel_remaining ≤ s.fuel_remaining := by
  cases hfly : s.is_flying with
  | false => rw [updateFlight_not_flying M o dt hfly]
  | true =>
    cases hcf : s.current_flight with
    | none => rw [updateFlight_no_flight M o dt hcf]
    | some fp =>
      rw [updateFlight_flying M o dt hcf hfly]
      unfold updatePipeline
      rw [updateWeatherEffects_keeps_fuel_remaining, checkSystems_keeps_fuel_remaining,
        updatePosition_keeps_fuel_remaining, applyAutopilotCorrection_keeps_fuel_remaining,
        applyDriftMechanics_keeps_fuel_remaining]
      calc (updateAircraftState fp dt
              (updateFlightPhase { s with elapsed_time := s.elapsed_time + dt })).fuel_remaining
          ≤ (updateFlightPhase { s with elapsed_time := s.elapsed_time + dt }).fuel_remaining := by
            apply updateAircraftState_fuel_le fp _ hdt
            rw [updateFlightPhase_keeps_fuel_remaining]
            exact h0
        _ = s.fuel_remaining := updateFlightPhase_keeps_fuel_remaining _

/-- Invariant propagation over a whole sequence of update calls. -/
theorem fuelTempInv_runUpdates (M : MathFns) (ticks : List (ℚ × TickOracle)) :
    ∀ s : SimState, (∀ p ∈ ticks, 0 ≤ p.1) →
    0 ≤ s.fuel_remaining → s.fuel_remaining ≤ 100 →
    160 ≤ s.engine_temp → s.engine_temp ≤ 250 →
    ((0 ≤ (runUpdates M ticks s).fuel_remaining ∧
        (runUpdates M ticks s).fuel_remaining ≤ 100) ∧
      (160 ≤ (runUpdates M ticks s).engine_temp ∧
        (runUpdates M ticks s).engine_temp ≤ 250) ∧
      (runUpdates M ticks s).fuel_remaining ≤ s.fuel_remaining) := by
  induction ticks with
  | nil =>
    intro s _ hf0 hf1 ht0 ht1
    exact ⟨⟨hf0, hf1⟩, ⟨ht0, ht1⟩, le_refl _⟩
  | cons p rest ih =>
    obtain ⟨dt, o⟩ := p
    intro s hticks hf0 hf1 ht0 ht1
    have hdt : 0 ≤ dt := hticks (dt, o) (List.mem_cons_self _ _)
    obtain ⟨⟨a1, a2⟩, b1, b2⟩ := fuelTempInv_updateFlight M o s hdt hf0 hf1 ht0 ht1
    have hle := updateFlight_fuel_le M o s hdt hf0
    have hrest := ih (updateFlight M o dt s).1
      (fun q hq => hticks q (List.mem_cons_of_mem _ hq)) a1 a2 b1 b2
    have hrw : runUpdates M ((dt, o) :: rest) s =
        runUpdates M rest (updateFlight M o dt s).1 := rfl
    rw [hrw]
    exact ⟨hrest.1, hrest.2.1, hrest.2.2.trans hle⟩

/-- C6: starting from the engine's initial values (fuel 100, engine
temperature 180) or any state within bounds, any sequence of `update`
calls with positive `dt` keeps `fuel_remaining` in `[0,100]` (and it
only decreases) and `engine_temp` in `[160,250]`, for arbitrary oracle
draws; quantifying over every tick list covers every intermediate
state. -/
theorem fuel_and_temp_bounded (M : MathFns) (g : WeatherGen)
    (ticks : List (ℚ × TickOracle)) (s : SimState)
    (hticks : ∀ p ∈ ticks, 0 < p.1)
    (hf0 : 0 ≤ s.fuel_remaining) (hf1 : s.fuel_remaining ≤ 100)
    (ht0 : 160 ≤ s.engine_temp) (ht1 : s.engine_temp ≤ 250) :
    ((initState M g).fuel_remaining = 100 ∧ (initState M g).engine_temp = 180) ∧
    (0 ≤ (runUpdates M ticks s).fuel_remaining ∧
      (runUpdates M ticks s).fuel_remaining ≤ 100) ∧
    (160 ≤ (runUpdates M ticks s).engine_temp ∧
      (runUpdates M ticks s).engine_temp ≤ 250) ∧
    (runUpdates M ticks s).fuel_remaining ≤ s.fuel_remaining := by
  have h := fuelTempInv_runUpdates M ticks s (fun p hp => (hticks p hp).le) hf0 hf1 ht0 ht1
  exact ⟨⟨rfl, rfl⟩, h.1, h.2.1, h.2.2⟩

/-- Witness for `fuel_and_temp_bounded` at one concrete tick from the
initial state. -/
theorem fuel_and_temp_bounded_witness :
    (0 ≤ (runUpdates mathFns0 [(1, to0)] (initState mathFns0 g0)).fuel_remaining ∧
      (runUpdates mathFns0 [(1, to0)] (initState mathFns0 g0)).fuel_remaining ≤ 100) ∧
    (160 ≤ (runUpdates mathFns0 [(1, to0)] (initState mathFns0 g0)).engine_temp ∧
      (runUpdates mathFns0 [(1, to0)] (initState mathFns0 g0)).engine_temp ≤ 250) ∧
    (runUpdates mathFns0 [(1, to0)] (initState mathFns0 g0)).fuel_remaining ≤
      (initState mathFns0 g0).fuel_remaining :=
  (fuel_and_temp_bounded mathFns0 g0 [(1, to0)] (initState mathFns0 g0)
    (by decide) (by decide) (by decide) (by decide) (by decide)).2

/-- C7: calling `start_flight` while a flight is active returns `false`
and leaves every field of the state unchanged, for any plan and any
oracle draws — at most one flight per engine instance. -/
theorem startFlight_no_double_start (M : MathFns) (o : StartOracle) (fp : FlightPlan)
    (s : SimState) (h : s.is_flying = true) :
    startFlight M o fp s = (false, s) := by
  unfold startFlight
  simp [h]

/-- Witness for `startFlight_no_double_start` on a concrete in-flight
state. -/
theorem startFlight_no_double_start_witness :
    sCruise.is_flying = true ∧ startFlight mathFns0 so0 fpShort sCruise = (false, sCruise) :=
  ⟨by decide, startFlight_no_double_start mathFns0 so0 fpShort sCruise (by decide)⟩

/-- C8: when an `update` of an active flight sets the phase to
`COMPLETED`, the flying flag is cleared, and every subsequent `update`
(any `dt`, any oracle) leaves the state unchanged and returns the same
final snapshot. -/
theorem completed_is_absorbing (M M' : MathFns) (o o' : TickOracle) (dt dt' : ℚ)
    (s : SimState) (fp : FlightPlan)
    (hfly : s.is_flying = true) (hcf : s.current_flight = some fp)
    (hc : (updateFlight M o dt s).1.flight_phase = .completed) :
    (updateFlight M o dt s).1.is_flying = false ∧
    updateFlight M' o' dt' (updateFlight M o dt s).1 =
      ((updateFlight M o dt s).1, (updateFlight M o dt s).2) := by
  have hupd := updateFlight_flying M o dt hcf hfly
  have hA := fieldsA_pipeline_tail M o dt fp s
  have hcf1 : ({ s with elapsed_time := s.elapsed_time + dt } : SimState).current_flight =
      some fp := hcf
  obtain ⟨hp, hf⟩ := updateFlightPhase_spec hcf1
  have hcP : (updatePipeline M o dt fp s).flight_phase = .completed := by
    rw [hupd] at hc
    exact hc
  have hspec : phaseOfSpec ({ s with elapsed_time := s.elapsed_time + dt } : SimState).elapsed_time
      ((fp.estimated_time_minutes : ℚ) * 60) = .completed := by
    rw [← hp, ← fieldsA_phase hA]
    exact hcP
  have hflyP : (updatePipeline M o dt fp s).is_flying = false := by
    rw [fieldsA_fly hA, hf, if_pos hspec]
  constructor
  · rw [hupd]
    exact hflyP
  · rw [hupd]
    exact updateFlight_not_flying M' o' dt' hflyP

/-- Witness for `completed_is_absorbing`: one long tick completes the
short flight, after which a further update is a pure no-op. -/
theorem completed_is_absorbing_witness :
    sStart.is_flying = true ∧ sStart.current_flight = some fpShort ∧
    (updateFlight mathFns0 to0 1300 sStart).1.flight_phase = .completed ∧
    ((updateFlight mathFns0 to0 1300 sStart).1.is_flying = false ∧
      updateFlight mathFns0 to0 5 (updateFlight mathFns0 to0 1300 sStart).1 =
        ((updateFlight mathFns0 to0 1300 sStart).1, (updateFlight mathFns0 to0 1300 sStart).2)) :=
  have hcf : sStart.current_flight = some fpShort := by decide
  have hcf1 : ({ sStart with elapsed_time := sStart.elapsed_time + 1300 } : SimState).current_flight =
      some fpShort := hcf
  have hc : (updateFlight mathFns0 to0 1300 sStart).1.flight_phase = .completed := by
    rw [updateFlight_flying mathFns0 to0 1300 hcf (by decide)]
    rw [fieldsA_phase (fieldsA_pipeline_tail mathFns0 to0 1300 fpShort sStart)]
    rw [(updateFlightPhase_spec hcf1).1]
    norm_num [phaseOfSpec, phaseThresholds, firstMatch,
      show sStart.elapsed_time = 0 from by decide, fpShort]
  ⟨by decide, by decide, hc,
    completed_is_absorbing mathFns0 mathFns0 to0 to0 1300 5 sStart fpShort
      (by decide) (by decide) hc⟩

/-- C5: for an active flight, the phase after an `update` is the pure
first-match scan of the listed thresholds over the new elapsed time and
the plan's total duration (`phaseOfSpec`), and the flying flag ends up
cleared exactly when that scan reaches the final `COMPLETED` row. -/
theorem phase_is_pure_first_match (M : MathFns) (o : TickOracle) (dt : ℚ)
    (s : SimState) (fp : FlightPlan) (hfly : s.is_flying = true)
    (hcf : s.current_flight = some fp) :
    (updateFlight M o dt s).1.flight_phase =
      phaseOfSpec (s.elapsed_time + dt) ((fp.estimated_time_minutes : ℚ) * 60) ∧
    ((updateFlight M o dt s).1.is_flying = false ↔
      phaseOfSpec (s.elapsed_time + dt) ((fp.estimated_time_minutes : ℚ) * 60) = .completed) := by
  have hupd := updateFlight_flying M o dt hcf hfly
  have hA := fieldsA_pipeline_tail M o dt fp s
  have hcf1 : ({ s with elapsed_time := s.elapsed_time + dt } : SimState).current_flight =
      some fp := hcf
  obtain ⟨hp, hf⟩ := updateFlightPhase_spec hcf1
  constructor
  · rw [hupd]
    exact (fieldsA_phase hA).trans hp
  · rw [hupd]
    constructor
    · intro h
      by_contra hne
      have h2 : ({ s with elapsed_time := s.elapsed_time + dt } : SimState).is_flying = false := by
        have h3 := (fieldsA_fly hA).symm.trans h
        rw [hf, if_neg hne] at h3
        exact h3
      exact absurd (hfly.symm.trans h2) (by decide)
    · intro h
      rw [fieldsA_fly hA, hf, if_pos h]

/-- Witness for `phase_is_pure_first_match` after one concrete tick. -/
theorem phase_is_pure_first_match_witness :
    sStart.is_flying = true ∧ sStart.current_flight = some fpShort ∧
    ((updateFlight mathFns0 to0 100 sStart).1.flight_phase =
        phaseOfSpec (sStart.elapsed_time + 100) ((fpShort.estimated_time_minutes : ℚ) * 60) ∧
      ((updateFlight mathFns0 to0 100 sStart).1.is_flying = false ↔
        phaseOfSpec (sStart.elapsed_time + 100) ((fpShort.estimated_time_minutes : ℚ) * 60) =
          .completed)) :=
  ⟨by decide, by decide,
    phase_is_pure_first_match mathFns0 to0 100 sStart fpShort (by decide) (by decide)⟩

/-- C10 (implicit behavior): `start_flight` sets the initial altitude to
the departure latitude times 100 — negative for a southern-hemisphere
departure — and in the LANDING phase the per-tick state update moves the
altitude down by `100·dt` exactly while it is above the destination
latitude times 100. -/
theorem altitude_from_latitude (M : MathFns) (o : StartOracle) (fp : FlightPlan)
    (s t : SimState) (dt : ℚ) (h : s.is_flying = false)
    (ht : t.flight_phase = .landing) :
    (startFlight M o fp s).2.altitude = fp.departure.coordinates.1 * 100 ∧
    (fp.departure.coordinates.1 < 0 → (startFlight M o fp s).2.altitude < 0) ∧
    (updateAircraftState fp dt t).altitude =
      (if t.altitude > fp.destination.coordinates.1 * 100 then t.altitude - 100 * dt
       else t.altitude) := by
  have halt : (startFlight M o fp s).2.altitude = fp.departure.coordinates.1 * 100 := by
    unfold startFlight
    simp [h]
  refine ⟨halt, ?_, ?_⟩
  · intro hlat
    rw [halt]
    exact mul_neg_of_neg_of_pos hlat (by norm_num)
  · unfold updateAircraftState
    simp only [ht]
    simp only [apply_ite SimState.flight_phase, apply_ite SimState.altitude,
      apply_ite SimState.fuel_remaining, ite_self]

/-- Witness for `altitude_from_latitude` on the southern-hemisphere
plan. -/
theorem altitude_from_latitude_witness :
    (initState mathFns0 g0).is_flying = false ∧ sLanding.flight_phase = .landing ∧
    ((startFlight mathFns0 so0 fpSouth (initState mathFns0 g0)).2.altitude =
        fpSouth.departure.coordinates.1 * 100 ∧
      (fpSouth.departure.coordinates.1 < 0 →
        (startFlight mathFns0 so0 fpSouth (initState mathFns0 g0)).2.altitude < 0) ∧
      (updateAircraftState fpSouth 2 sLanding).altitude =
        (if sLanding.altitude > fpSouth.destination.coordinates.1 * 100
         then sLanding.altitude - 100 * 2 else sLanding.altitude)) :=
  ⟨by decide, by decide,
    altitude_from_latitude mathFns0 so0 fpSouth (initState mathFns0 g0) sLanding 2
      (by decide) (by decide)⟩

theorem endFlight_not_flying {s : SimState} (h : s.is_flying = false) :
    endFlight s = (none, s) := by
  unfold endFlight
  simp [h]

/-- C4 counterexample: drive the short flight to COMPLETED through the
phase machine; `end_flight` then returns the empty dict, not a summary
with `completed = true`, because reaching COMPLETED cleared the flying
flag. -/
theorem endFlight_after_completed_counterexample :
    (updateFlight mathFns0 to0 1300 sStart).1.flight_phase = .completed ∧
    (endFlight (updateFlight mathFns0 to0 1300 sStart).1).1 = none := by
  have hcf : sStart.current_flight = some fpShort := by decide
  have hfly : sStart.is_flying = true := by decide
  have hcf1 : ({ sStart with elapsed_time := sStart.elapsed_time + 1300 } : SimState).current_flight =
      some fpShort := hcf
  have hA := fieldsA_pipeline_tail mathFns0 to0 1300 fpShort sStart
  obtain ⟨hp, hf⟩ := updateFlightPhase_spec hcf1
  have hspec : phaseOfSpec ({ sStart with elapsed_time := sStart.elapsed_time + 1300 } :
      SimState).elapsed_time ((fpShort.estimated_time_minutes : ℚ) * 60) = .completed := by
    norm_num [phaseOfSpec, phaseThresholds, firstMatch,
      show sStart.elapsed_time = 0 from by decide, fpShort]
  have hupd := updateFlight_flying mathFns0 to0 1300 hcf hfly
  have hc : (updateFlight mathFns0 to0 1300 sStart).1.flight_phase = .completed := by
    rw [hupd]
    rw [fieldsA_phase hA, hp]
    exact hspec
  have hflyP : (updatePipeline mathFns0 to0 1300 fpShort sStart).is_flying = false := by
    rw [fieldsA_fly hA, hf, if_pos hspec]
  refine ⟨hc, ?_⟩
  rw [hupd]
  have := endFlight_not_flying hflyP
  rw [this]

/-- C4 (amended): `end_flight` returns the empty structure exactly when
the flying flag is false; for a state with the flying flag set it
returns the summary with `completed = (phase = COMPLETED)`, flight time,
deviation and alert counters, fuel efficiency, emergency flag and final
progress; and since an update that drives the phase machine to COMPLETED
also clears the flying flag, `end_flight` after such an update returns
the empty structure. -/
theorem endFlight_spec (M : MathFns) (o : TickOracle) (dt : ℚ) (fp : FlightPlan)
    (s : SimState) :
    (s.is_flying = false → endFlight s = (none, s)) ∧
    (s.is_flying = true → (endFlight s).1 = some
      { completed := decide (s.flight_phase = .completed),
        flight_time := s.elapsed_time,
        course_deviations := s.course_deviations,
        system_alerts := s.system_alerts_count,
        fuel_efficiency := s.fuel_efficiency,
        emergency_landing := s.emergency_state,
        final_progress := s.progress_percent }) ∧
    (s.is_flying = true → s.current_flight = some fp →
      (updateFlight M o dt s).1.flight_phase = .completed →
      (endFlight (updateFlight M o dt s).1).1 = none) := by
  refine ⟨fun h => endFlight_not_flying h, fun h => ?_, fun hfly hcf hc => ?_⟩
  · unfold endFlight
    simp [h]
  · have hupd := updateFlight_flying M o dt hcf hfly
    have hA := fieldsA_pipeline_tail M o dt fp s
    have hcf1 : ({ s with elapsed_time := s.elapsed_time + dt } : SimState).current_flight =
        some fp := hcf
    obtain ⟨hp, hf⟩ := updateFlightPhase_spec hcf1
    have hspec : phaseOfSpec ({ s with elapsed_time := s.elapsed_time + dt } :
        SimState).elapsed_time ((fp.estimated_time_minutes : ℚ) * 60) = .completed := by
      rw [← hp, ← fieldsA_phase hA]
      rw [hupd] at hc
      exact hc
    have hflyP : (updatePipeline M o dt fp s).is_flying = false := by
      rw [fieldsA_fly hA, hf, if_pos hspec]
    rw [hupd]
    rw [endFlight_not_flying hflyP]

/-- Witness for `endFlight_spec` on concrete states. -/
theorem endFlight_spec_witness :
    endFlight (initState mathFns0 g0) = (none, initState mathFns0 g0) ∧
    (endFlight sCruise).1 = some
      { completed := decide (sCruise.flight_phase = .completed),
        flight_time := sCruise.elapsed_time,
        course_deviations := sCruise.course_deviations,
        system_alerts := sCruise.system_alerts_count,
        fuel_efficiency := sCruise.fuel_efficiency,
        emergency_landing := sCruise.emergency_state,
        final_progress := sCruise.progress_percent } :=
  ⟨(endFlight_spec mathFns0 to0 1 fpShort (initState mathFns0 g0)).1 (by decide),
    (endFlight_spec mathFns0 to0 1 fpShort sCruise).2.1 (by decide)⟩

/-- C1: the `int(...)` conversions of `_get_status` raise on NaN (and on
Infinity) instead of substituting the documented fallbacks 0/0/0/0/180;
no sanitisation exists in `_get_status`. Evaluated at the failing input
of `test_get_status_nan_protection` (all five fields NaN) and at a state
where only the heading is corrupted. -/
theorem getStatus_nan_raises :
    statusIntsF PyF.nan PyF.nan PyF.nan PyF.nan PyF.nan = .error "ValueError" ∧
    statusIntsF (.fin 0) (.fin 0) PyF.nan (.fin 0) (.fin 180) = .error "ValueError" ∧
    statusIntsF (.fin 0) (.fin 0) PyF.posInf (.fin 0) (.fin 180) = .error "OverflowError" := by
  refine ⟨rfl, rfl, rfl⟩

/-- C2: both NaN entry points corrupt the heading: a NaN course
correction makes the stored heading NaN (`nan + x` and `nan % 360` are
NaN), and a NaN weather crosswind before a drift tick does the same, so
the heading leaves `[0,360)` instead of the operation being a no-op. -/
theorem heading_nan_propagates :
    applyCourseCorrectionF (.fin 0) PyF.nan = PyF.nan ∧
    (applyCourseCorrectionF (.fin 0) PyF.nan).finiteInRange = false ∧
    driftHeadingF true (.fin (1/5)) PyF.nan (.fin 0) 1 = PyF.nan ∧
    (driftHeadingF true (.fin (1/5)) PyF.nan (.fin 0) 1).finiteInRange = false ∧
    driftHeadingF false (.fin (1/5)) PyF.nan (.fin 0) 1 = PyF.nan := by
  refine ⟨rfl, rfl, rfl, rfl, rfl⟩

/-- C3: the `elif engine_temp > 240` branch of `_check_systems` is dead
code — whenever the temperature exceeds 240 it also exceeds 230, so only
the "Engine temperature high" warning is ever appended and the
"ENGINE OVERHEATING" critical alert can never be emitted; shown in
general and at the failing input 245. -/
theorem overheating_alert_never_emitted (s : SimState) :
    ((checkTempAlerts s).system_alerts = s.system_alerts ∨
      (checkTempAlerts s).system_alerts = s.system_alerts ++ ["Engine temperature high"]) ∧
    ((245 : ℚ) > 240 ∧
      (checkTempAlerts { sCruise with engine_temp := 245 }).system_alerts =
        ["Engine temperature high"]) := by
  constructor
  · unfold checkTempAlerts
    split_ifs with h1 h2 h3 h4
    · exact Or.inr rfl
    · exact Or.inl rfl
    · linarith
    · linarith
    · exact Or.inl rfl
  · exact ⟨by norm_num, by decide⟩

/-! ### Heading computation helpers for the autopilot scenario -/

theorem applyDriftMechanics_heading (now dt : ℚ) (s : SimState)
    (h : ¬(s.flight_phase = .taxi ∨ s.flight_phase = .takeoff ∨ s.flight_phase = .landing)) :
    (applyDriftMechanics now dt s).heading = pymod (s.heading + driftAmount dt s) 360 := by
  unfold applyDriftMechanics
  rw [if_neg h, driftTrackDeviation_keeps_heading]
  rfl

theorem applyAutopilotCorrection_heading_on (fp : FlightPlan) (dt : ℚ) (t : SimState)
    (hap : t.autopilot_enabled = true) :
    (applyAutopilotCorrection fp dt t).heading = (autopilotHeadingControl dt t).heading := by
  unfold applyAutopilotCorrection
  rw [if_neg (by simp [hap]), autopilotSpeedControl_keeps_heading]

theorem autopilotHeadingControl_heading (dt : ℚ) (t : SimState)
    (hph : t.flight_phase = .climb ∨ t.flight_phase = .cruise ∨
      t.flight_phase = .descent ∨ t.flight_phase = .approach)
    (herr : |signedHeadingError t| > 1/5) :
    (autopilotHeadingControl dt t).heading =
      pymod (t.heading +
        (if signedHeadingError t > 0 then min (signedHeadingError t) (3/2 * dt)
         else max (signedHeadingError t) (-(3/2 * dt)))) 360 := by
  unfold autopilotHeadingControl
  rw [if_pos hph]
  simp only []
  rw [if_pos herr]

theorem phaseOfSpec_cruise {e total : ℚ} (h1 : 900 ≤ e) (h2 : e < total - 900) :
    phaseOfSpec e total = .cruise := by
  simp only [phaseOfSpec, phaseThresholds, firstMatch]
  split_ifs <;> first | rfl | linarith

theorem signedHeadingError_eq (t : SimState) :
    signedHeadingError t = signedErr t.heading t.target_heading := rfl

theorem signedErr_range {h g : ℚ} (h0 : 0 ≤ h) (h1 : h < 360) (g0 : 0 ≤ g)
    (g1 : g < 360) : -180 ≤ signedErr h g ∧ signedErr h g ≤ 180 := by
  unfold signedErr
  simp only []
  split_ifs <;> constructor <;> linarith

/-- For headings in `[0, 360)` the circular distance is the absolute
value of the signed shortest-direction error. -/
theorem circDist_eq_abs_signedErr {h g : ℚ} (h0 : 0 ≤ h) (h1 : h < 360) (g0 : 0 ≤ g)
    (g1 : g < 360) : circDist h g = |signedErr h g| := by
  unfold circDist signedErr
  simp only []
  split_ifs with he1 he2
  · rw [abs_of_neg (by linarith : h - g < 0), abs_of_neg (by linarith : g - h - 360 < 0),
      min_eq_right (by linarith)]
    ring
  · rw [abs_of_pos (by linarith : 0 < h - g), abs_of_pos (by linarith : 0 < g - h + 360),
      min_eq_right (by linarith)]
    ring
  · have hle : |g - h| ≤ 180 := abs_le.mpr ⟨by linarith, by linarith⟩
    rw [abs_sub_comm h g, min_eq_left (by linarith)]

/-- If `x ∈ [-180, 180]` is congruent to `g - a` modulo 360 (the only
possible shifts for `a, g ∈ [0, 360)` being `0, ±360`), then the signed
error of the pair has absolute value `|x|`. -/
theorem abs_signedErr_of_rep {a g x : ℚ} (ha0 : 0 ≤ a) (ha1 : a < 360)
    (hg0 : 0 ≤ g) (hg1 : g < 360) (hx0 : -180 ≤ x) (hx1 : x ≤ 180)
    (hrep : g - a = x ∨ g - a = x + 360 ∨ g - a = x - 360) :
    |signedErr a g| = |x| := by
  unfold signedErr
  simp only []
  rcases hrep with h | h | h <;> split_ifs with he1 he2
  · exfalso; rw [h] at he1; linarith
  · exfalso; rw [h] at he2; linarith
  · rw [h]
  · rw [h, show x + 360 - 360 = x from by ring]
  · exfalso; rw [h] at he2; linarith
  · have hxe : x = -180 := by
      rw [h] at he1
      push_neg at he1
      linarith
    rw [h, hxe]
    norm_num [abs_of_nonneg, abs_of_nonpos]
  · exfalso; rw [h] at he1; linarith
  · rw [h, show x - 360 + 360 = x from by ring]
  · have hxe : x = 180 := by
      rw [h] at he2
      push_neg at he2
      linarith
    rw [h, hxe]
    norm_num [abs_of_nonneg, abs_of_nonpos]

/-- The heading-control block never moves the heading away from the
target, and moves it toward the target by at most the max-correction
rate `1.5°/s` times `dt` (per application): the source clamps the
applied correction to `±1.5·dt` and never past the error itself
(lines 514-517). -/
theorem autopilotHeadingControl_toward_bound (dt : ℚ) (t : SimState) (hdt : 0 ≤ dt)
    (h0 : 0 ≤ t.heading) (h1 : t.heading < 360)
    (g0 : 0 ≤ t.target_heading) (g1 : t.target_heading < 360) :
    circDist (autopilotHeadingControl dt t).heading t.target_heading ≤
      circDist t.heading t.target_heading ∧
    circDist t.heading t.target_heading -
      circDist (autopilotHeadingControl dt t).heading t.target_heading ≤ 3/2 * dt := by
  by_cases hph : t.flight_phase = .climb ∨ t.flight_phase = .cruise ∨
      t.flight_phase = .descent ∨ t.flight_phase = .approach
  · by_cases herr : |signedHeadingError t| > 1/5
    · rw [autopilotHeadingControl_heading dt t hph herr]
      set e := signedHeadingError t with he_def
      set c := (if e > 0 then min e (3/2 * dt) else max e (-(3/2 * dt))) with hc_def
      obtain ⟨her0, her1⟩ : -180 ≤ e ∧ e ≤ 180 := by
        rw [he_def, signedHeadingError_eq]
        exact signedErr_range h0 h1 g0 g1
      have hc_cases : (0 < e ∧ 0 ≤ c ∧ c ≤ e) ∨ (e < 0 ∧ e ≤ c ∧ c ≤ 0) := by
        rcases lt_trichotomy e 0 with h | h | h
        · right
          rw [hc_def, if_neg (not_lt.mpr h.le)]
          exact ⟨h, le_max_left _ _, max_le h.le (by linarith)⟩
        · exfalso
          rw [h] at herr
          norm_num at herr
        · left
          rw [hc_def, if_pos h]
          exact ⟨h, le_min h.le (by linarith), min_le_left _ _⟩
      have hc_abs : |c| ≤ 3/2 * dt := by
        rcases hc_cases with ⟨hs1, hs2, hs3⟩ | ⟨hs1, hs2, hs3⟩
        · have hcu : c ≤ 3/2 * dt := by
            rw [hc_def, if_pos hs1]
            exact min_le_right _ _
          rw [abs_of_nonneg hs2]
          linarith
        · have hcl : -(3/2 * dt) ≤ c := by
            rw [hc_def, if_neg (not_lt.mpr hs1.le)]
            exact le_max_right _ _
          rw [abs_of_nonpos hs3]
          linarith
      have hc_lb : -180 ≤ c := by
        rcases hc_cases with ⟨hs1, hs2, hs3⟩ | ⟨hs1, hs2, hs3⟩ <;> linarith
      have hc_ub : c ≤ 180 := by
        rcases hc_cases with ⟨hs1, hs2, hs3⟩ | ⟨hs1, hs2, hs3⟩ <;> linarith
      have he_cases : e = t.target_heading - t.heading ∨
          e = t.target_heading - t.heading - 360 ∨
          e = t.target_heading - t.heading + 360 := by
        rw [he_def]
        unfold signedHeadingError
        simp only []
        split_ifs
        · right; left; rfl
        · right; right; rfl
        · left; rfl
      have hrep : t.target_heading - pymod (t.heading + c) 360 = e - c ∨
          t.target_heading - pymod (t.heading + c) 360 = e - c + 360 ∨
          t.target_heading - pymod (t.heading + c) 360 = e - c - 360 := by
        rcases lt_or_le (t.heading + c) 0 with hA | hA
        · rw [pymod_neg_eq (by norm_num) (by linarith) hA]
          rcases he_cases with hE | hE | hE <;>
            rcases hc_cases with ⟨hs1, hs2, hs3⟩ | ⟨hs1, hs2, hs3⟩ <;>
            first
              | (left; linarith)
              | (right; left; linarith)
              | (right; right; linarith)
        · rcases lt_or_le (t.heading + c) 360 with hB | hB
          · rw [pymod_eq_self hA hB]
            rcases he_cases with hE | hE | hE <;>
              rcases hc_cases with ⟨hs1, hs2, hs3⟩ | ⟨hs1, hs2, hs3⟩ <;>
              first
                | (left; linarith)
                | (right; left; linarith)
                | (right; right; linarith)
          · rw [pymod_shift hB (by linarith) (by norm_num)]
            rcases he_cases with hE | hE | hE <;>
              rcases hc_cases with ⟨hs1, hs2, hs3⟩ | ⟨hs1, hs2, hs3⟩ <;>
              first
                | (left; linarith)
                | (right; left; linarith)
                | (right; right; linarith)
      have hx0 : -180 ≤ e - c := by
        rcases hc_cases with ⟨hs1, hs2, hs3⟩ | ⟨hs1, hs2, hs3⟩ <;> linarith
      have hx1 : e - c ≤ 180 := by
        rcases hc_cases with ⟨hs1, hs2, hs3⟩ | ⟨hs1, hs2, hs3⟩ <;> linarith
      have hnew : circDist (pymod (t.heading + c) 360) t.target_heading = |e - c| := by
        rw [circDist_eq_abs_signedErr (pymod_nonneg (by norm_num) _)
          (pymod_lt (by norm_num) _) g0 g1]
        exact abs_signedErr_of_rep (pymod_nonneg (by norm_num) _)
          (pymod_lt (by norm_num) _) g0 g1 hx0 hx1 hrep
      have hold : circDist t.heading t.target_heading = |e| := by
        rw [circDist_eq_abs_signedErr h0 h1 g0 g1, ← signedHeadingError_eq, ← he_def]
      have hdiff : |e - c| = |e| - |c| := by
        rcases hc_cases with ⟨hs1, hs2, hs3⟩ | ⟨hs1, hs2, hs3⟩
        · rw [abs_of_nonneg (by linarith : (0:ℚ) ≤ e - c), abs_of_nonneg hs1.le,
            abs_of_nonneg hs2]
        · rw [abs_of_nonpos (by linarith : e - c ≤ 0), abs_of_nonpos hs1.le,
            abs_of_nonpos hs3]
          ring
      rw [hnew, hold, hdiff]
      constructor
      · linarith [abs_nonneg c]
      · linarith
    · have hkeep : (autopilotHeadingControl dt t).heading = t.heading := by
        unfold autopilotHeadingControl
        simp only []
        split_ifs <;> rfl
      rw [hkeep, sub_self]
      exact ⟨le_refl _, by linarith⟩
  · have hkeep : (autopilotHeadingControl dt t).heading = t.heading := by
      unfold autopilotHeadingControl
      rw [if_neg hph]
    rw [hkeep, sub_self]
    exact ⟨le_refl _, by linarith⟩

/-- The heading produced by one `update_flight` tick (`dt = 1`) in the
autopilot scenario: cruise phase, autopilot on, heading 0, target 90;
the drift contribution lands on the heading and the autopilot then adds
its full `1.5°` correction toward the target. -/
theorem updateFlight_cruise_heading (M : MathFns) (o : TickOracle) (s : SimState)
    (fp : FlightPlan)
    (hfly : s.is_flying = true) (hcf : s.current_flight = some fp)
    (hap : s.autopilot_enabled = true) (hh : s.heading = 0) (hth : s.target_heading = 90)
    (he1 : 900 ≤ s.elapsed_time + 1)
    (he2 : s.elapsed_time + 1 < (fp.estimated_time_minutes : ℚ) * 60 - 900)
    (hD : |s.drift_rate * 1 * (3/10) +
      s.current_weather.crosswind_component * (1/100) * 1| < 3/2) :
    (updateFlight M o 1 s).1.heading =
      s.drift_rate * 1 * (3/10) + s.current_weather.crosswind_component * (1/100) * 1 + 3/2 := by
  rw [updateFlight_flying M o 1 hcf hfly]
  show (updatePipeline M o 1 fp s).heading = _
  set s1 : SimState := { s with elapsed_time := s.elapsed_time + 1 } with hs1
  have hcf1 : s1.current_flight = some fp := hcf
  set s2 := updateFlightPhase s1 with hs2
  set s3 := updateAircraftState fp 1 s2 with hs3
  set s4 := applyDriftMechanics o.now 1 s3 with hs4
  set s5 := applyAutopilotCorrection fp 1 s4 with hs5
  have hpipe : updatePipeline M o 1 fp s =
      updateWeatherEffects M o.weatherEvent (checkSystems o.tempNoise (updatePosition M 1 s5)) :=
    rfl
  rw [hpipe, updateWeatherEffects_keeps_heading, checkSystems_keeps_heading,
    updatePosition_keeps_heading]
  have hph2 : s2.flight_phase = .cruise := by
    rw [hs2, (updateFlightPhase_spec hcf1).1]
    exact phaseOfSpec_cruise he1 he2
  have hph3 : s3.flight_phase = .cruise := by
    rw [hs3, fieldsA_phase (fieldsA_updateAircraftState fp 1 s2)]
    exact hph2
  have hph4 : s4.flight_phase = .cruise := by
    rw [hs4, fieldsA_phase (fieldsA_applyDriftMechanics o.now 1 s3)]
    exact hph3
  have hh3 : s3.heading = 0 := by
    rw [hs3, updateAircraftState_keeps_heading, hs2, updateFlightPhase_keeps_heading]
    exact hh
  have hth3 : s3.target_heading = 90 := by
    rw [hs3, updateAircraftState_keeps_target_heading, hs2, updateFlightPhase_keeps_target_heading]
    exact hth
  have hap3 : s3.autopilot_enabled = true := by
    rw [hs3, updateAircraftState_keeps_autopilot_enabled, hs2,
      updateFlightPhase_keeps_autopilot_enabled]
    exact hap
  have hdr3 : s3.drift_rate = s.drift_rate := by
    rw [hs3, updateAircraftState_keeps_drift_rate, hs2, updateFlightPhase_keeps_drift_rate]
  have hw3 : s3.current_weather = s.current_weather := by
    rw [hs3, updateAircraftState_keeps_current_weather, hs2, updateFlightPhase_keeps_current_weather]
  have hDval : driftAmount 1 s3 =
      s.drift_rate * 1 * (3/10) + s.current_weather.crosswind_component * (1/100) * 1 := by
    unfold driftAmount
    simp only []
    rw [hap3, hdr3, hw3]
    norm_num
  have hnotex : ¬(s3.flight_phase = .taxi ∨ s3.flight_phase = .takeoff ∨
      s3.flight_phase = .landing) := by
    simp [hph3]
  have hh4 : s4.heading = pymod (driftAmount 1 s3) 360 := by
    rw [hs4, applyDriftMechanics_heading o.now 1 s3 hnotex, hh3, zero_add]
  have hth4 : s4.target_heading = 90 := by
    rw [hs4, fieldsA_th (fieldsA_applyDriftMechanics o.now 1 s3)]
    exact hth3
  have hap4 : s4.autopilot_enabled = true := by
    rw [hs4, fieldsA_ap (fieldsA_applyDriftMechanics o.now 1 s3)]
    exact hap3
  have h5 : s5.heading = (autopilotHeadingControl 1 s4).heading := by
    rw [hs5]
    exact applyAutopilotCorrection_heading_on fp 1 s4 hap4
  have hd_abs : |driftAmount 1 s3| < 3/2 := by
    rw [hDval]
    exact hD
  have hd_ub : driftAmount 1 s3 < 3/2 := lt_of_le_of_lt (le_abs_self _) hd_abs
  have hd_lb : -(3/2) < driftAmount 1 s3 := (abs_lt.mp hd_abs).1
  have hphfour : s4.flight_phase = .climb ∨ s4.flight_phase = .cruise ∨
      s4.flight_phase = .descent ∨ s4.flight_phase = .approach := Or.inr (Or.inl hph4)
  rcases le_or_lt 0 (driftAmount 1 s3) with hd0 | hd0
  · have hh4' : s4.heading = driftAmount 1 s3 := by
      rw [hh4]
      exact pymod_eq_self hd0 (by linarith)
    have herr : signedHeadingError s4 = 90 - driftAmount 1 s3 := by
      unfold signedHeadingError
      simp only []
      rw [hth4, hh4']
      rw [if_neg (by linarith), if_neg (by linarith)]
    rw [h5, autopilotHeadingControl_heading 1 s4 hphfour
      (by rw [herr, abs_of_pos (by linarith)]; linarith)]
    rw [herr, hh4']
    rw [if_pos (show (90 : ℚ) - driftAmount 1 s3 > 0 by linarith)]
    rw [min_eq_right (by linarith : (3/2 : ℚ) * 1 ≤ 90 - driftAmount 1 s3)]
    rw [pymod_eq_self (by linarith) (by linarith)]
    rw [hDval]
    ring
  · have hh4' : s4.heading = driftAmount 1 s3 + 360 := by
      rw [hh4]
      exact pymod_neg_eq (by norm_num) (by linarith) hd0
    have herr : signedHeadingError s4 = 90 - driftAmount 1 s3 := by
      unfold signedHeadingError
      simp only []
      rw [hth4, hh4']
      rw [if_neg (by linarith), if_pos (by linarith)]
      ring
    rw [h5, autopilotHeadingControl_heading 1 s4 hphfour
      (by rw [herr, abs_of_pos (by linarith)]; linarith)]
    rw [herr, hh4']
    rw [if_pos (show (90 : ℚ) - driftAmount 1 s3 > 0 by linarith)]
    rw [min_eq_right (by linarith : (3/2 : ℚ) * 1 ≤ 90 - driftAmount 1 s3)]
    rw [pymod_shift (by linarith) (by linarith) (by norm_num)]
    rw [hDval]
    ring

/-- C9 counterexample: in the 90°-off CRUISE scenario with autopilot on,
one `update(dt=1)` moves the heading toward the target by `1.76°`,
exceeding the `1.5°` max-correction-per-second bound, because the drift
contribution (`0.2·0.3 + 20·0.01 = 0.26°`) is applied on top of the full
autopilot correction. -/
theorem autopilot_bound_counterexample :
    sCruise.autopilot_enabled = true ∧
    circDist sCruise.heading sCruise.target_heading = 90 ∧
    90 - circDist (updateFlight mathFns0 to0 1 sCruise).1.heading sCruise.target_heading =
      44/25 ∧
    ¬(90 - circDist (updateFlight mathFns0 to0 1 sCruise).1.heading sCruise.target_heading ≤
      3/2) := by
  have hH := updateFlight_cruise_heading mathFns0 to0 sCruise fpTest rfl rfl rfl rfl rfl
    (by norm_num [sCruise]) (by norm_num [sCruise, fpTest])
    (by norm_num [sCruise, abs_of_nonneg])
  have hx : (updateFlight mathFns0 to0 1 sCruise).1.heading = 44/25 := by
    rw [hH]
    norm_num [sCruise]
  have hth : sCruise.target_heading = 90 := rfl
  have hh : sCruise.heading = 0 := rfl
  refine ⟨rfl, ?_, ?_, ?_⟩
  · rw [hth, hh]
    rw [circDist, abs_of_nonpos (by norm_num)]
    rw [min_eq_left (by norm_num)]
    norm_num
  · rw [hth, hx]
    rw [circDist, abs_of_nonpos (by norm_num)]
    rw [min_eq_left (by norm_num)]
    norm_num
  · rw [hth, hx]
    rw [circDist, abs_of_nonpos (by norm_num)]
    rw [min_eq_left (by norm_num)]
    norm_num

/-- C9 (amended): the autopilot heading correction is applied only in
CLIMB/CRUISE/DESCENT/APPROACH, is a no-op inside the 0.2° deadband,
computes the signed shortest-direction error in `[-180,180]`, and
otherwise moves the heading toward the target (never away) by at most
the max-correction rate `1.5°/s` times `dt`; in the 90°-off CRUISE
scenario with autopilot on and per-tick drift contribution smaller
than the correction, one `update(dt=1)` moves the heading strictly
toward the target, by the `1.5°` max correction plus the drift
contribution — bounded by `1.5 + |drift|`, not by `1.5` alone. -/
theorem autopilot_correction_properties (M : MathFns) (o : TickOracle) (s : SimState)
    (fp : FlightPlan)
    (hfly : s.is_flying = true) (hcf : s.current_flight = some fp)
    (hap : s.autopilot_enabled = true) (hh : s.heading = 0) (hth : s.target_heading = 90)
    (he1 : 900 ≤ s.elapsed_time + 1)
    (he2 : s.elapsed_time + 1 < (fp.estimated_time_minutes : ℚ) * 60 - 900)
    (hD : |s.drift_rate * 1 * (3/10) +
      s.current_weather.crosswind_component * (1/100) * 1| < 3/2) :
    (∀ (dt : ℚ) (t : SimState),
        ¬(t.flight_phase = .climb ∨ t.flight_phase = .cruise ∨
          t.flight_phase = .descent ∨ t.flight_phase = .approach) →
        (autopilotHeadingControl dt t).heading = t.heading) ∧
    (∀ (dt : ℚ) (t : SimState), ¬(|signedHeadingError t| > 1/5) →
        (autopilotHeadingControl dt t).heading = t.heading) ∧
    (∀ t : SimState, 0 ≤ t.heading → t.heading < 360 → 0 ≤ t.target_heading →
        t.target_heading < 360 →
        -180 ≤ signedHeadingError t ∧ signedHeadingError t ≤ 180) ∧
    (∀ (dt : ℚ) (t : SimState), 0 ≤ dt → 0 ≤ t.heading → t.heading < 360 →
        0 ≤ t.target_heading → t.target_heading < 360 →
        circDist (autopilotHeadingControl dt t).heading t.target_heading ≤
          circDist t.heading t.target_heading ∧
        circDist t.heading t.target_heading -
          circDist (autopilotHeadingControl dt t).heading t.target_heading ≤ 3/2 * dt) ∧
    (circDist (updateFlight M o 1 s).1.heading s.target_heading < 90 ∧
      0 < 90 - circDist (updateFlight M o 1 s).1.heading s.target_heading ∧
      90 - circDist (updateFlight M o 1 s).1.heading s.target_heading ≤
        3/2 + |s.drift_rate * 1 * (3/10) +
          s.current_weather.crosswind_component * (1/100) * 1|) := by
  refine ⟨?_, ?_, ?_, ?_, ?_⟩
  · intro dt t hnot
    unfold autopilotHeadingControl
    rw [if_neg hnot]
  · intro dt t hdead
    unfold autopilotHeadingControl
    simp only []
    split_ifs <;> rfl
  · intro t h0 h1 h2 h3
    unfold signedHeadingError
    simp only []
    split_ifs <;> constructor <;> linarith
  · intro dt t hdt ha0 ha1 hb0 hb1
    exact autopilotHeadingControl_toward_bound dt t hdt ha0 ha1 hb0 hb1
  · have hH := updateFlight_cruise_heading M o s fp hfly hcf hap hh hth he1 he2 hD
    have hd_ub := lt_of_le_of_lt (le_abs_self _) hD
    have hd_lb := (abs_lt.mp hD).1
    have habs := le_abs_self (s.drift_rate * 1 * (3/10) +
      s.current_weather.crosswind_component * (1/100) * 1)
    rw [hth, hH]
    rw [circDist, abs_of_nonpos (by linarith)]
    rw [min_eq_left (by linarith)]
    refine ⟨by linarith, by linarith, by linarith⟩

/-- Witness for `autopilot_correction_properties` at the concrete
mid-cruise state. -/
theorem autopilot_correction_properties_witness :
    (∀ (dt : ℚ) (t : SimState),
        ¬(t.flight_phase = .climb ∨ t.flight_phase = .cruise ∨
          t.flight_phase = .descent ∨ t.flight_phase = .approach) →
        (autopilotHeadingControl dt t).heading = t.heading) ∧
    (∀ (dt : ℚ) (t : SimState), ¬(|signedHeadingError t| > 1/5) →
        (autopilotHeadingControl dt t).heading = t.heading) ∧
    (∀ t : SimState, 0 ≤ t.heading → t.heading < 360 → 0 ≤ t.target_heading →
        t.target_heading < 360 →
        -180 ≤ signedHeadingError t ∧ signedHeadingError t ≤ 180) ∧
    (∀ (dt : ℚ) (t : SimState), 0 ≤ dt → 0 ≤ t.heading → t.heading < 360 →
        0 ≤ t.target_heading → t.target_heading < 360 →
        circDist (autopilotHeadingControl dt t).heading t.target_heading ≤
          circDist t.heading t.target_heading ∧
        circDist t.heading t.target_heading -
          circDist (autopilotHeadingControl dt t).heading t.target_heading ≤ 3/2 * dt) ∧
    (circDist (updateFlight mathFns0 to0 1 sCruise).1.heading sCruise.target_heading < 90 ∧
      0 < 90 - circDist (updateFlight mathFns0 to0 1 sCruise).1.heading sCruise.target_heading ∧
      90 - circDist (updateFlight mathFns0 to0 1 sCruise).1.heading sCruise.target_heading ≤
        3/2 + |sCruise.drift_rate * 1 * (3/10) +
          sCruise.current_weather.crosswind_component * (1/100) * 1|) :=
  autopilot_correction_properties mathFns0 to0 sCruise fpTest rfl rfl rfl rfl rfl
    (by norm_num [sCruise]) (by norm_num [sCruise, fpTest])
    (by norm_num [sCruise, abs_of_nonneg])

end Oogame
